import Mathlib

/-!
# Verification of the couple-love-story event management engine

Shallow embedding of the event-management core of the repository:

* `utils/eventUtils.ts` — `EventValidator`, `RecurringEventCalculator`
  (occurrence expansion for recurring events);
* `lib/database.ts` — `DatabaseManager` (event store with soft delete,
  versioning, audit trail, TTL query cache);
* `lib/eventNotifications.ts` — `EventReminderScheduler.calculateReminderTimes`;
* `pages/api/events/index.ts` — `InputSanitizer`, `handleCreateEvent`.

Modelling conventions:

* JavaScript `Date` values are modelled at day resolution as days since
  1970-01-01 (an `Int`); an *invalid* date (`NaN` timestamp) is `none` in
  `Option Int`.  All date values handled by the claims are midnight dates,
  so day resolution is faithful for them.  Comparisons involving an invalid
  date are `false`, as for `NaN` in JavaScript.
* date-fns `addDays`/`addWeeks`/`addMonths`/`addYears`/`setDay` and the
  `Date.setDate` method are embedded through exact civil-calendar
  arithmetic (proleptic Gregorian, Howard Hinnant's algorithms).
* JavaScript strict (in)equality `!==` between heterogeneous values
  (SQLite column value vs. payload value) is embedded via the `JSValue`
  type; two object references are never strictly equal, which is the case
  for every comparison reached by this code (a freshly parsed request
  object is never the same reference as a database value).
* SQLite TEXT comparison is byte-wise; on the ASCII ISO strings used by
  the store this is the character-wise lexicographic order `strLe`.
-/

namespace CoupleEvents

/-! ## Civil calendar arithmetic (proleptic Gregorian, day resolution) -/

def isLeapYear (y : Int) : Bool :=
  (y.emod 4 == 0 && y.emod 100 != 0) || y.emod 400 == 0

def daysInMonthYM (y : Int) (m : Nat) : Nat :=
  if m = 1 then 31
  else if m = 2 then (if isLeapYear y then 29 else 28)
  else if m = 3 then 31
  else if m = 4 then 30
  else if m = 5 then 31
  else if m = 6 then 30
  else if m = 7 then 31
  else if m = 8 then 31
  else if m = 9 then 30
  else if m = 10 then 31
  else if m = 11 then 30
  else 31

/-- Days since 1970-01-01 of the civil date `y-m-d` (Hinnant's
`days_from_civil`; `m` is 1-based). -/
def daysFromCivil (y : Int) (m d : Nat) : Int :=
  let y' : Int := if m ≤ 2 then y - 1 else y
  let era : Int := y'.ediv 400
  let yoe : Nat := (y' - era * 400).toNat
  let mp : Nat := (m + 9) % 12
  let doy : Nat := (153 * mp + 2) / 5 + d - 1
  let doe : Nat := yoe * 365 + yoe / 4 - yoe / 100 + doy
  era * 146097 + (doe : Int) - 719468

/-- Civil date `(y, m, d)` of a day count (Hinnant's `civil_from_days`). -/
def civilFromDays (z : Int) : Int × Nat × Nat :=
  let z' : Int := z + 719468
  let era : Int := z'.ediv 146097
  let doe : Nat := (z' - era * 146097).toNat
  let yoe : Nat := (doe - doe / 1460 + doe / 36524 - doe / 146096) / 365
  let doy : Nat := doe - (365 * yoe + yoe / 4 - yoe / 100)
  let mp : Nat := (5 * doy + 2) / 153
  let d : Nat := doy - (153 * mp + 2) / 5 + 1
  let m : Nat := if mp < 10 then mp + 3 else mp - 9
  ((yoe : Int) + era * 400 + (if m ≤ 2 then 1 else 0), m, d)

/-- Weekday of a day count, `0 = Sunday` (1970-01-01 was a Thursday),
matching JavaScript `Date.prototype.getDay`. -/
def getDayOfWeekZ (z : Int) : Nat := ((z + 4).emod 7).toNat

/-- date-fns `addMonths`: move by whole months, clamping the day-of-month
to the length of the target month. -/
def addMonthsZ (n : Int) (z : Int) : Int :=
  let c := civilFromDays z
  let y := c.1
  let m := c.2.1
  let day := c.2.2
  let total : Int := y * 12 + ((m : Int) - 1) + n
  let y' : Int := total.ediv 12
  let m' : Nat := (total.emod 12).toNat + 1
  daysFromCivil y' m' (min day (daysInMonthYM y' m'))

/-- JavaScript `Date.prototype.setDate n`: sets the day-of-month to `n`,
normalizing overflow and underflow into adjacent months. -/
def setDateZ (z : Int) (n : Int) : Int :=
  let c := civilFromDays z
  daysFromCivil c.1 c.2.1 1 + (n - 1)

/-- date-fns `setDay` (week starts on Sunday): move within the week of `z`
to weekday `day`. -/
def setDayZ (z : Int) (day : Nat) : Int :=
  z + ((day : Int) - (getDayOfWeekZ z : Int))

/-! JavaScript `Date` values at day resolution: `none` is an Invalid Date
(`NaN` timestamp); every comparison with it is false. -/

def jsAddDays (n : Int) (d : Option Int) : Option Int := d.map (· + n)
def jsAddWeeks (n : Int) (d : Option Int) : Option Int := d.map (· + 7 * n)
def jsAddMonths (n : Int) (d : Option Int) : Option Int := d.map (addMonthsZ n)
/-- date-fns `addYears` is `addMonths` by `12 * n` (clamps Feb 29). -/
def jsAddYears (n : Int) (d : Option Int) : Option Int := d.map (addMonthsZ (12 * n))

/-- date-fns `isAfter a b` (`false` when either date is invalid). -/
def jsIsAfter (a b : Option Int) : Bool :=
  match a, b with
  | some x, some y => x > y
  | _, _ => false

/-- `a >= b` on a possibly invalid date vs. a valid bound. -/
def jsGeI (a : Option Int) (b : Int) : Bool :=
  match a with
  | some x => x ≥ b
  | none => false

/-- `a <= b` on a possibly invalid date vs. a valid bound. -/
def jsLeI (a : Option Int) (b : Int) : Bool :=
  match a with
  | some x => x ≤ b
  | none => false

/-- `a > b` on a possibly invalid date vs. a valid bound (`isAfter`). -/
def jsGtI (a : Option Int) (b : Int) : Bool :=
  match a with
  | some x => x > b
  | none => false

/-! ## `parseISO` (date-fns), modelled for the calendar-date forms used by
the system: `YYYY-MM-DD`, optionally followed by `THH:MM:SS`, an optional
`.mmm` fraction and an optional `Z`.  The time-of-day is validated and then
discarded (day resolution); any other shape is an Invalid Date (`none`). -/

def digitVal (c : Char) : Option Nat :=
  if c.isDigit then some (c.toNat - 48) else none

def twoDigits (a b : Char) : Option Nat := do
  let x ← digitVal a
  let y ← digitVal b
  pure (10 * x + y)

def validTimeTail : List Char → Bool
  | [] => true
  | ['Z'] => true
  | '.' :: a :: b :: c :: rest =>
    (digitVal a).isSome && (digitVal b).isSome && (digitVal c).isSome &&
      (rest = [] || rest = ['Z'])
  | _ => false

def validTimePart : List Char → Bool
  | [] => true
  | 'T' :: h1 :: h2 :: ':' :: m1 :: m2 :: ':' :: s1 :: s2 :: rest =>
    (match twoDigits h1 h2, twoDigits m1 m2, twoDigits s1 s2 with
     | some hh, some mm, some ss => hh < 24 && mm < 60 && ss < 60
     | _, _, _ => false) && validTimeTail rest
  | _ => false

def parseISOChars : List Char → Option Int
  | y1 :: y2 :: y3 :: y4 :: '-' :: m1 :: m2 :: '-' :: d1 :: d2 :: rest => do
    let a ← digitVal y1
    let b ← digitVal y2
    let c ← digitVal y3
    let d ← digitVal y4
    let y : Int := (1000 * a + 100 * b + 10 * c + d : Nat)
    let mo ← twoDigits m1 m2
    let da ← twoDigits d1 d2
    if 1 ≤ mo ∧ mo ≤ 12 ∧ 1 ≤ da ∧ da ≤ daysInMonthYM y mo ∧ validTimePart rest
    then pure (daysFromCivil y mo da)
    else none
  | _ => none

/-- date-fns `parseISO` at day resolution; `none` is an Invalid Date. -/
def parseISO (s : String) : Option Int := parseISOChars s.data

/-! ## Data model (`types/event.ts`, `lib/database.ts` interfaces) -/

/-- `RecurringEventConfig` (types/event.ts).  `frequency` is kept as a
string because the calculator's `switch` has a default branch for values
outside the four supported literals. -/
structure RecurringEventConfig where
  frequency : String
  interval : Int
  end_date : Option String := none
  max_occurrences : Option Int := none
  days_of_week : Option (List Nat) := none
  day_of_month : Option Int := none
deriving DecidableEq, Repr

/-- `EnhancedEvent` (types/event.ts / lib/database.ts). -/
structure EnhancedEvent where
  id : Nat
  title : String
  date : String
  description : Option String := none
  is_recurring : Bool
  recurring_config : Option RecurringEventConfig := none
  category : String
  priority : String
  location : Option String := none
  reminder_minutes : Option Int := none
  is_all_day : Bool := false
  timezone : String := "UTC"
  created_at : String := ""
  updated_at : String := ""
  created_by : Option String := none
  updated_by : Option String := none
  version : Int := 1
  deleted_at : Option String := none
deriving DecidableEq, Repr

/-- `EventOccurrence` (types/event.ts).  The source stores
`formatISO(currentDate)` and re-parses it with `parseISO` wherever the
date is consumed; at day resolution this round-trip is the identity, so
the occurrence date is stored as the day value itself. -/
structure EventOccurrence where
  id : String
  event_id : Nat
  date : Option Int
  is_original : Bool
  occurrence_index : Nat
deriving DecidableEq, Repr

structure EventValidationError where
  field : String
  message : String
deriving DecidableEq, Repr

/-! ## `EventValidator.validateRecurringConfig` (utils/eventUtils.ts) -/

def validateRecurringConfig (config : RecurringEventConfig) : List EventValidationError :=
  (if config.interval < 1 || config.interval > 365 then
    [{ field := "recurring_config",
       message := "Recurring interval must be between 1 and 365" }]
   else []) ++
  (match config.end_date with
   | some s =>
     if s ≠ "" && (parseISO s).isNone then
       [{ field := "recurring_config",
          message := "Invalid end date for recurring event" }]
     else []
   | none => []) ++
  (match config.max_occurrences with
   | some m =>
     if m ≠ 0 && (m < 1 || m > 1000) then
       [{ field := "recurring_config",
          message := "Max occurrences must be between 1 and 1000" }]
     else []
   | none => [])

/-! ## `RecurringEventCalculator` (utils/eventUtils.ts) -/

/-- Character-wise lexicographic strict order (UTF-16 code order on the
ASCII data in play), as JavaScript compares strings. -/
def charListLt : List Char → List Char → Bool
  | [], [] => false
  | [], _ :: _ => true
  | _ :: _, [] => false
  | a :: as, b :: bs => if a < b then true else if b < a then false else charListLt as bs

def strLt (a b : String) : Bool := charListLt a.data b.data

def strLe (a b : String) : Bool := !strLt b a

/-- JavaScript `String.prototype.trim` (strip leading and trailing
whitespace), at code-unit level. -/
def jsTrim (s : String) : String :=
  String.mk (((s.data.dropWhile Char.isWhitespace).reverse.dropWhile Char.isWhitespace).reverse)

/-- JavaScript `String.prototype.length` (UTF-16 code units; the strings
in play are ASCII, where code units coincide with characters). -/
def jsStrLength (s : String) : Nat := s.data.length

/-- JavaScript default `Array.prototype.sort` compares elements as
strings; on the single-digit weekday indices `0..6` this coincides with
the numeric order.  Stable insertion sort by decimal string. -/
def jsStrLeNat (a b : Nat) : Bool :=
  strLe (toString a) (toString b)

def insertSorted (le : Nat → Nat → Bool) (x : Nat) : List Nat → List Nat
  | [] => [x]
  | y :: ys => if le x y && !le y x then x :: y :: ys else y :: insertSorted le x ys

def jsDefaultSort (l : List Nat) : List Nat :=
  l.foldr (insertSorted jsStrLeNat) []

/-- `getNextWeeklyOccurrence`: next configured weekday within the current
week, else jump `interval` weeks and take the earliest configured weekday.
An invalid current date propagates (every `NaN` comparison is false and
the date arithmetic preserves `NaN`). -/
def getNextWeeklyOccurrence (currentDate : Option Int)
    (config : RecurringEventConfig) : Option Int :=
  let daysOfWeek := jsDefaultSort (config.days_of_week.getD [])
  match currentDate with
  | none => none
  | some z =>
    let currentDayOfWeek := getDayOfWeekZ z
    match daysOfWeek.find? (fun day => day > currentDayOfWeek) with
    | some nextDayInWeek => some (setDayZ z nextDayInWeek)
    | none =>
      let nextWeek := z + 7 * config.interval
      some (setDayZ nextWeek (daysOfWeek.headD 0))

/-- `getNextMonthlyOccurrence`: add `interval` months, then `setDate` to
the target day, using the last day of the month when the target does not
exist there. -/
def getNextMonthlyOccurrence (currentDate : Option Int)
    (config : RecurringEventConfig) : Option Int :=
  match currentDate with
  | none => none
  | some z =>
    let targetDay := config.day_of_month.getD 0
    let nextMonth := addMonthsZ config.interval z
    let c := civilFromDays nextMonth
    let daysInMonth := daysInMonthYM c.1 c.2.1
    if targetDay > (daysInMonth : Int) then some (setDateZ nextMonth (daysInMonth : Int))
    else some (setDateZ nextMonth targetDay)

/-- The calculator throws `Error` for an unsupported frequency; the fuel
marker `outOfFuel` is an artifact of the embedding and is proved
unreachable from the fuel the embedding uses (`calcLoop_no_fuel_error`). -/
inductive CalcError where
  | unsupportedFrequency (freq : String)
  | outOfFuel
deriving DecidableEq, Repr

/-- `getNextOccurrenceDate`: frequency dispatch; the `default` branch of
the `switch` throws. -/
def getNextOccurrenceDate (currentDate : Option Int)
    (config : RecurringEventConfig) : Except CalcError (Option Int) :=
  match config.frequency with
  | "daily" => .ok (jsAddDays config.interval currentDate)
  | "weekly" =>
    if (config.days_of_week.getD []).length > 0 then
      .ok (getNextWeeklyOccurrence currentDate config)
    else .ok (jsAddWeeks config.interval currentDate)
  | "monthly" =>
    if config.day_of_month.getD 0 ≠ 0 then
      .ok (getNextMonthlyOccurrence currentDate config)
    else .ok (jsAddMonths config.interval currentDate)
  | "yearly" => .ok (jsAddYears config.interval currentDate)
  | freq => .error (.unsupportedFrequency freq)

/-- Truthiness guard `config.end_date && isAfter(currentDate, parseISO(config.end_date))`. -/
def endDateExceeded (config : RecurringEventConfig) (currentDate : Option Int) : Bool :=
  match config.end_date with
  | some s => s ≠ "" && jsIsAfter currentDate (parseISO s)
  | none => false

/-- Truthiness guard `config.max_occurrences && occurrenceIndex >= config.max_occurrences - 1`. -/
def maxOccurrencesReached (config : RecurringEventConfig) (occurrenceIndex : Nat) : Bool :=
  match config.max_occurrences with
  | some m => m ≠ 0 && (occurrenceIndex : Int) ≥ m - 1
  | none => false

def mkOccurrence (eventId : Nat) (d : Option Int) (idx : Nat) : EventOccurrence :=
  { id := toString eventId ++ "-" ++ toString idx
    event_id := eventId
    date := d
    is_original := idx == 0
    occurrence_index := idx }

/-- The iteration's in-window emission
(`if (currentDate >= startDate && currentDate <= endDate) occurrences.push(…)`):
the occurrence list after the push, before the termination checks. -/
def emitList (eventId : Nat) (startDate endDate : Int) (cur : Option Int)
    (idx : Nat) (acc : List EventOccurrence) : List EventOccurrence :=
  if jsGeI cur startDate && jsLeI cur endDate then
    acc ++ [mkOccurrence eventId cur idx]
  else acc

/-- The `while` loop of `calculateOccurrences`, one fuel unit per
iteration.  Body order follows the source exactly: emit if within the
window (`emitList`), then check `end_date`, `max_occurrences`, window
end, then advance (the advance may throw for an unsupported frequency),
then the `occurrenceIndex > 10000` safety valve. -/
def calcLoop (eventId : Nat) (config : RecurringEventConfig)
    (startDate endDate : Int) (maxOccurrences : Nat) :
    Nat → Option Int → Nat → List EventOccurrence →
    Except CalcError (List EventOccurrence)
  | 0, _, _, _ => .error .outOfFuel
  | fuel + 1, currentDate, occurrenceIndex, occurrences =>
    if occurrences.length < maxOccurrences then
      if endDateExceeded config currentDate then
        .ok (emitList eventId startDate endDate currentDate occurrenceIndex occurrences)
      else if maxOccurrencesReached config occurrenceIndex then
        .ok (emitList eventId startDate endDate currentDate occurrenceIndex occurrences)
      else if jsGtI currentDate endDate then
        .ok (emitList eventId startDate endDate currentDate occurrenceIndex occurrences)
      else
        match getNextOccurrenceDate currentDate config with
        | .error e => .error e
        | .ok nextDate =>
          if occurrenceIndex + 1 > 10000 then
            .ok (emitList eventId startDate endDate currentDate occurrenceIndex occurrences)
          else calcLoop eventId config startDate endDate maxOccurrences fuel
                 nextDate (occurrenceIndex + 1)
                 (emitList eventId startDate endDate currentDate occurrenceIndex occurrences)
    else .ok occurrences

/-- The loop's safety valve fires at `occurrenceIndex = 10001` at the
latest, so 10002 fuel units always suffice (`calcLoop_fuel_irrel`). -/
def LOOP_FUEL : Nat := 10002

/-- `RecurringEventCalculator.calculateOccurrences` with explicit fuel. -/
def calculateOccurrencesFuel (fuel : Nat) (event : EnhancedEvent)
    (startDate endDate : Int) (maxOccurrences : Nat) :
    Except CalcError (List EventOccurrence) :=
  match event.is_recurring, event.recurring_config with
  | true, some config =>
    calcLoop event.id config startDate endDate maxOccurrences fuel
      (parseISO event.date) 0 []
  | _, _ =>
    if jsGeI (parseISO event.date) startDate && jsLeI (parseISO event.date) endDate then
      .ok [{ id := toString event.id ++ "-original"
             event_id := event.id
             date := parseISO event.date
             is_original := true
             occurrence_index := 0 }]
    else .ok []

/-- `RecurringEventCalculator.calculateOccurrences` (default
`maxOccurrences` in the source is 100, passed explicitly here). -/
def calculateOccurrences (event : EnhancedEvent) (startDate endDate : Int)
    (maxOccurrences : Nat) : Except CalcError (List EventOccurrence) :=
  calculateOccurrencesFuel LOOP_FUEL event startDate endDate maxOccurrences

/-- Occurrence date list of a calculator result (empty on a thrown error). -/
def occDates (r : Except CalcError (List EventOccurrence)) : List (Option Int) :=
  (r.toOption.getD []).map (·.date)

instance : DecidableEq (Except CalcError (List EventOccurrence)) := fun a b =>
  match a, b with
  | .ok x, .ok y =>
    if h : x = y then .isTrue (by rw [h]) else .isFalse (by intro hc; cases hc; exact h rfl)
  | .error x, .error y =>
    if h : x = y then .isTrue (by rw [h]) else .isFalse (by intro hc; cases hc; exact h rfl)
  | .ok _, .error _ => .isFalse (by intro hc; cases hc)
  | .error _, .ok _ => .isFalse (by intro hc; cases hc)

/-! ## `EventReminderScheduler.calculateReminderTimes` (lib/eventNotifications.ts) -/

/-- `NotificationPreferences` (lib/eventNotifications.ts), restricted to
the fields `calculateReminderTimes` reads. -/
structure NotificationPreferences where
  user_id : String
  reminder_times : List Int
deriving DecidableEq, Repr

/-- `[...new Set(l)]`: removes duplicates keeping the first occurrence of
each element, in order. -/
def jsSetDedupAux (seen : List Int) : List Int → List Int
  | [] => []
  | x :: xs =>
    if x ∈ seen then jsSetDedupAux seen xs
    else x :: jsSetDedupAux (x :: seen) xs

def jsSetDedup (l : List Int) : List Int := jsSetDedupAux [] l

/-- `.sort((a, b) => a - b)`: numeric ascending sort (stable insertion
sort; the input is duplicate-free after the `Set` round-trips). -/
def insertSortedInt (x : Int) : List Int → List Int
  | [] => [x]
  | y :: ys => if x < y then x :: y :: ys else y :: insertSortedInt x ys

def jsSortNumericAsc (l : List Int) : List Int :=
  l.foldr insertSortedInt []

/-- The `switch (event.priority)` stage: `high` unions in
{5, 15, 60, 1440}, `medium` unions in {15, 60}, `low` filters out leads
under 60, any other value leaves the list unchanged. -/
def priorityAdjusted (event : EnhancedEvent) (reminderTimes : List Int) : List Int :=
  if event.priority = "high" then
    jsSetDedup (reminderTimes ++ [5, 15, 60, 1440])
  else if event.priority = "medium" then
    jsSetDedup (reminderTimes ++ [15, 60])
  else if event.priority = "low" then
    reminderTimes.filter (fun time => time ≥ 60)
  else reminderTimes

/-- The category stage: anniversary/birthday events union in the 1-day
and 1-week leads. -/
def categoryAdjusted (event : EnhancedEvent) (reminderTimes : List Int) : List Int :=
  if event.category = "anniversary" ∨ event.category = "birthday" then
    jsSetDedup (reminderTimes ++ [1440, 7 * 1440])
  else reminderTimes

/-- The override stage: a truthy `event.reminder_minutes` is unioned in. -/
def overrideAdjusted (event : EnhancedEvent) (reminderTimes : List Int) : List Int :=
  match event.reminder_minutes with
  | some m => if m ≠ 0 then jsSetDedup (reminderTimes ++ [m]) else reminderTimes
  | none => reminderTimes

/-- `calculateReminderTimes`: the preference lead times through the
priority, category and override stages (the source's successive
`reminderTimes` reassignments), sorted ascending. -/
def calculateReminderTimes (event : EnhancedEvent)
    (preferences : NotificationPreferences) : List Int :=
  jsSortNumericAsc
    (overrideAdjusted event
      (categoryAdjusted event
        (priorityAdjusted event preferences.reminder_times)))

/-! ## `DatabaseManager` (lib/database.ts)

The SQLite tables are modelled as lists in insertion order; the `events`
row carries the stored (column-level) representations: booleans as the
integers 0/1, `recurring_config` as its JSON text, nullable TEXT columns
as `Option String`.  `CURRENT_TIMESTAMP` and the SQLite `datetime`
expressions are inputs supplied by the clock/SQL engine. -/

/-- A row of the `events` table, with column representations. -/
structure EventRow where
  id : Nat
  title : String
  description : Option String := none
  date : String
  timezone : String := "UTC"
  is_all_day : Int := 0
  location : Option String := none
  category : String := "other"
  priority : String := "medium"
  is_recurring : Int := 0
  recurring_config : Option String := none
  reminder_minutes : Option Int := none
  created_at : String := ""
  updated_at : String := ""
  created_by : Option String := none
  updated_by : Option String := none
  version : Int := 1
  deleted_at : Option String := none
deriving DecidableEq, Repr

/-- The generated `search_text` column:
`title || ' ' || COALESCE(description, '') || ' ' || COALESCE(location, '')`. -/
def searchTextOf (r : EventRow) : String :=
  r.title ++ " " ++ r.description.getD "" ++ " " ++ r.location.getD ""

/-- A JavaScript runtime value, as compared by `!==` in the field diff of
`updateEnhancedEvent`.  A SQLite column value is a string, a number or
`null`; a payload value may also be a boolean or an object.  Two distinct
object references are never strictly equal, and an object read from the
payload is never the same reference as any database value, so `vObj` is
strictly equal to nothing. -/
inductive JSValue where
  | vNull
  | vStr (s : String)
  | vNum (n : Int)
  | vBool (b : Bool)
  | vObj (config : RecurringEventConfig)
deriving DecidableEq, Repr

/-- JavaScript strict equality `===` on the values above (no coercions;
`1 === true` is false, `"x" === {…}` is false). -/
def strictEq : JSValue → JSValue → Bool
  | .vNull, .vNull => true
  | .vStr a, .vStr b => a == b
  | .vNum a, .vNum b => a == b
  | .vBool a, .vBool b => a == b
  | .vObj _, _ => false
  | _, _ => false

def jsonEscapeChar (c : Char) : String :=
  if c = '"' then "\\\"" else if c = '\\' then "\\\\" else String.singleton c

def jsonEscape (s : String) : String := String.join (s.data.map jsonEscapeChar)

def jsonString (s : String) : String := "\"" ++ jsonEscape s ++ "\""

/-- `JSON.stringify` of a `RecurringEventConfig`, with the interface's
field order and `undefined` members omitted. -/
def serializeConfig (c : RecurringEventConfig) : String :=
  "\x7b" ++
  String.intercalate ","
    (([some ("\"frequency\":" ++ jsonString c.frequency),
       some ("\"interval\":" ++ toString c.interval),
       c.end_date.map (fun s => "\"end_date\":" ++ jsonString s),
       c.max_occurrences.map (fun m => "\"max_occurrences\":" ++ toString m),
       c.days_of_week.map (fun l =>
         "\"days_of_week\":[" ++ String.intercalate "," (l.map toString) ++ "]"),
       c.day_of_month.map (fun d => "\"day_of_month\":" ++ toString d)]).filterMap id) ++
  "\x7d"

/-! `JSON.parse` of a stored `recurring_config` column: a recursive
descent parser for the object shape the store writes (string, integer and
integer-array members).  A malformed text is `none` (in the source a
thrown `SyntaxError` caught by the surrounding `try`). -/

def parseStringLitAux : List Char → List Char → Option (String × List Char)
  | [], _ => none
  | '\\' :: c :: rest, acc => parseStringLitAux rest (c :: acc)
  | '"' :: rest, acc => some (String.mk acc.reverse, rest)
  | c :: rest, acc => parseStringLitAux rest (c :: acc)

def parseStringLit : List Char → Option (String × List Char)
  | '"' :: rest => parseStringLitAux rest []
  | _ => none

def takeDigits : List Char → Nat → Nat × List Char
  | c :: rest, acc =>
    if c.isDigit then takeDigits rest (acc * 10 + (c.toNat - 48)) else (acc, c :: rest)
  | [], acc => (acc, [])

def parseNatLit : List Char → Option (Nat × List Char)
  | c :: rest =>
    if c.isDigit then some (takeDigits rest (c.toNat - 48)) else none
  | [] => none

def parseIntLit : List Char → Option (Int × List Char)
  | '-' :: rest => (parseNatLit rest).map (fun p => (-(p.1 : Int), p.2))
  | l => (parseNatLit l).map (fun p => ((p.1 : Int), p.2))

def parseNatListAux (fuel : Nat) (acc : List Nat) (l : List Char) :
    Option (List Nat × List Char) :=
  match fuel with
  | 0 => none
  | fuel + 1 =>
    match parseNatLit l with
    | some (n, ',' :: rest) => parseNatListAux fuel (acc ++ [n]) rest
    | some (n, ']' :: rest) => some (acc ++ [n], rest)
    | _ => none

def parseNatList : List Char → Option (List Nat × List Char)
  | '[' :: ']' :: rest => some ([], rest)
  | '[' :: rest => parseNatListAux rest.length [] rest
  | _ => none

def parseConfigFields (fuel : Nat) (c : RecurringEventConfig) (l : List Char) :
    Option RecurringEventConfig :=
  match fuel with
  | 0 => none
  | fuel + 1 =>
    match parseStringLit l with
    | some (key, ':' :: rest) =>
      let step : RecurringEventConfig → List Char → Option RecurringEventConfig :=
        fun c' rest' =>
          match rest' with
          | ',' :: more => parseConfigFields fuel c' more
          | ['\x7d'] => some c'
          | _ => none
      if key = "frequency" then
        match parseStringLit rest with
        | some (v, rest') => step { c with frequency := v } rest'
        | none => none
      else if key = "interval" then
        match parseIntLit rest with
        | some (v, rest') => step { c with interval := v } rest'
        | none => none
      else if key = "end_date" then
        match parseStringLit rest with
        | some (v, rest') => step { c with end_date := some v } rest'
        | none => none
      else if key = "max_occurrences" then
        match parseIntLit rest with
        | some (v, rest') => step { c with max_occurrences := some v } rest'
        | none => none
      else if key = "days_of_week" then
        match parseNatList rest with
        | some (v, rest') => step { c with days_of_week := some v } rest'
        | none => none
      else if key = "day_of_month" then
        match parseIntLit rest with
        | some (v, rest') => step { c with day_of_month := some v } rest'
        | none => none
      else none
    | _ => none

/-- `JSON.parse` of a stored `recurring_config` column. -/
def parseConfigJson (s : String) : Option RecurringEventConfig :=
  match s.data with
  | '\x7b' :: rest => parseConfigFields rest.length { frequency := "", interval := 0 } rest
  | _ => none

/-- The argument of `createEnhancedEvent` (the `eventData` parameter). -/
structure CreateEventData where
  title : String
  date : String
  description : Option String := none
  is_recurring : Bool
  recurring_config : Option RecurringEventConfig := none
  category : String
  priority : String
  timezone : Option String := none
  is_all_day : Option Bool := none
  location : Option String := none
  reminder_minutes : Option Int := none
deriving DecidableEq, Repr

/-- The argument of `updateEnhancedEvent` (the `Partial<…>` payload);
`none` is an absent (`undefined`) member. -/
structure UpdatePayload where
  title : Option String := none
  date : Option String := none
  description : Option String := none
  is_recurring : Option Bool := none
  recurring_config : Option RecurringEventConfig := none
  category : Option String := none
  priority : Option String := none
  timezone : Option String := none
  is_all_day : Option Bool := none
  location : Option String := none
  reminder_minutes : Option Int := none
deriving DecidableEq, Repr

/-- Audit-trail payloads are JSON text in the store; they are modelled
structurally, which preserves exactly the information the text carries. -/
inductive AuditBlob where
  | pairs (l : List (String × JSValue))
  | fieldNames (l : List String)
  | rowSnapshot (r : EventRow)
  | createData (d : CreateEventData)
deriving DecidableEq, Repr

/-- A row of the `event_history` table. -/
structure AuditEntry where
  event_id : Nat
  action : String
  changed_fields : Option AuditBlob := none
  old_values : Option AuditBlob := none
  new_values : Option AuditBlob := none
  changed_by : Option String := none
  changed_at : String := ""
deriving DecidableEq, Repr

/-- A row of the `event_reminders` table; `reminder_time` is modelled in
minutes since the epoch (`eventDate.getTime() - reminder_minutes * 60000`
at minute resolution). -/
structure ReminderRow where
  event_id : Nat
  reminder_time : Option Int
  status : String := "pending"
  retry_count : Int := 0
deriving DecidableEq, Repr

/-- A value held by the query cache: the payloads the three caching read
paths store. -/
inductive CacheData where
  | eventsList (l : List EnhancedEvent)
  | countVal (n : Nat)
  | statsVal (total upcoming past recurring thisMonth : Nat)
      (next_event : Option EnhancedEvent)
deriving DecidableEq, Repr

/-- A query-cache entry: `{ data, timestamp, ttl }` (milliseconds). -/
structure CacheEntry where
  data : CacheData
  timestamp : Int
  ttl : Int
deriving DecidableEq, Repr

/-- The in-memory state of a `DatabaseManager` (tables + query cache, in
insertion order, as a JavaScript `Map` preserves it). -/
structure DBState where
  nextId : Nat := 1
  events : List EventRow := []
  event_history : List AuditEntry := []
  event_reminders : List ReminderRow := []
  queryCache : List (String × CacheEntry) := []
deriving DecidableEq, Repr

def DEFAULT_CACHE_TTL : Int := 5 * 60 * 1000

/-- `pat` occurs as a contiguous sublist of `l`. -/
def containsSublist (pat : List Char) : List Char → Bool
  | [] => pat.isEmpty
  | c :: rest => pat.isPrefixOf (c :: rest) || containsSublist pat rest

/-- `key.includes(pattern)`. -/
def jsIncludes (key pattern : String) : Bool :=
  containsSublist pattern.data key.data

def cacheLookup (cache : List (String × CacheEntry)) (key : String) :
    Option CacheEntry :=
  (cache.find? (fun p => p.1 == key)).map (·.2)

def cacheErase (cache : List (String × CacheEntry)) (key : String) :
    List (String × CacheEntry) :=
  cache.filter (fun p => p.1 ≠ key)

/-- `Map.set`: replaces in place when the key exists (keeping its
insertion position), otherwise appends. -/
def cacheAssocSet (cache : List (String × CacheEntry)) (key : String)
    (e : CacheEntry) : List (String × CacheEntry) :=
  match cache with
  | [] => [(key, e)]
  | (k, v) :: rest =>
    if k == key then (key, e) :: rest else (k, v) :: cacheAssocSet rest key e

/-- `getCachedResult`: TTL-checked lookup; an expired entry is deleted
and reported as a miss.  Returns the hit and the possibly shrunk cache. -/
def getCachedResult (cache : List (String × CacheEntry)) (key : String)
    (nowMs : Int) : Option CacheData × List (String × CacheEntry) :=
  match cacheLookup cache key with
  | none => (none, cache)
  | some cached =>
    if nowMs - cached.timestamp > cached.ttl then (none, cacheErase cache key)
    else (some cached.data, cache)

/-- `setCachedResult`: evicts the oldest (first-inserted) entry when the
cache holds more than 200 entries, then sets the key. -/
def setCachedResult (cache : List (String × CacheEntry)) (key : String)
    (data : CacheData) (nowMs : Int) (ttl : Int) : List (String × CacheEntry) :=
  let cache := if cache.length > 200 then cache.drop 1 else cache
  cacheAssocSet cache key { data := data, timestamp := nowMs, ttl := ttl }

/-- `invalidateCache(pattern)`: removes every entry whose key contains
the pattern as a substring. -/
def invalidateCachePattern (cache : List (String × CacheEntry))
    (pattern : String) : List (String × CacheEntry) :=
  cache.filter (fun p => !jsIncludes p.1 pattern)

/-! ### Field-level diff of `updateEnhancedEvent`

`Object.entries(eventData)` is iterated in the payload's member order
(the interface declaration order is used here); a member participates
when it is defined (`value !== undefined`) and its value differs from the
stored column value under strict inequality (`currentEvent[key] !== value`). -/

inductive EventField where
  | title | date | description | is_recurring | recurring_config
  | category | priority | timezone | is_all_day | location | reminder_minutes
deriving DecidableEq, Repr

def allEventFields : List EventField :=
  [.title, .date, .description, .is_recurring, .recurring_config,
   .category, .priority, .timezone, .is_all_day, .location, .reminder_minutes]

def fieldName : EventField → String
  | .title => "title"
  | .date => "date"
  | .description => "description"
  | .is_recurring => "is_recurring"
  | .recurring_config => "recurring_config"
  | .category => "category"
  | .priority => "priority"
  | .timezone => "timezone"
  | .is_all_day => "is_all_day"
  | .location => "location"
  | .reminder_minutes => "reminder_minutes"

/-- The stored column value of a field, as the JavaScript value
`better-sqlite3` returns it: booleans are the integers 0/1,
`recurring_config` is JSON text or `null`, nullable TEXT is `null` or a
string. -/
def rowGet (r : EventRow) : EventField → JSValue
  | .title => .vStr r.title
  | .date => .vStr r.date
  | .description => match r.description with | some s => .vStr s | none => .vNull
  | .is_recurring => .vNum r.is_recurring
  | .recurring_config => match r.recurring_config with | some s => .vStr s | none => .vNull
  | .category => .vStr r.category
  | .priority => .vStr r.priority
  | .timezone => .vStr r.timezone
  | .is_all_day => .vNum r.is_all_day
  | .location => match r.location with | some s => .vStr s | none => .vNull
  | .reminder_minutes => match r.reminder_minutes with | some n => .vNum n | none => .vNull

/-- The payload value of a field (`none` when the member is absent). -/
def payloadGet (p : UpdatePayload) : EventField → Option JSValue
  | .title => p.title.map .vStr
  | .date => p.date.map .vStr
  | .description => p.description.map .vStr
  | .is_recurring => p.is_recurring.map .vBool
  | .recurring_config => p.recurring_config.map .vObj
  | .category => p.category.map .vStr
  | .priority => p.priority.map .vStr
  | .timezone => p.timezone.map .vStr
  | .is_all_day => p.is_all_day.map .vBool
  | .location => p.location.map .vStr
  | .reminder_minutes => p.reminder_minutes.map .vNum

/-- The fields the diff marks as changed. -/
def changedFields (p : UpdatePayload) (row : EventRow) : List EventField :=
  allEventFields.filter (fun f =>
    match payloadGet p f with
    | some v => !strictEq (rowGet row f) v
    | none => false)

/-- The SET clause of the dynamic UPDATE, applied to a matching row: each
changed field is written with its column conversion (`recurring_config`
stringified, booleans as 0/1, others verbatim), plus the metadata fields
`updated_at = CURRENT_TIMESTAMP`, `updated_by = ?`,
`version = version + 1`.  A changed field's payload member is defined, so
the `getD` defaults are never reached. -/
def applySetClause (changed : List EventField) (p : UpdatePayload)
    (userId : Option String) (now : String) (r : EventRow) : EventRow :=
  let r := if EventField.title ∈ changed then { r with title := p.title.getD r.title } else r
  let r := if EventField.date ∈ changed then { r with date := p.date.getD r.date } else r
  let r := if EventField.description ∈ changed then { r with description := p.description } else r
  let r := if EventField.is_recurring ∈ changed then
    { r with is_recurring := if p.is_recurring.getD false then 1 else 0 } else r
  let r := if EventField.recurring_config ∈ changed then
    { r with recurring_config := p.recurring_config.map serializeConfig } else r
  let r := if EventField.category ∈ changed then { r with category := p.category.getD r.category } else r
  let r := if EventField.priority ∈ changed then { r with priority := p.priority.getD r.priority } else r
  let r := if EventField.timezone ∈ changed then { r with timezone := p.timezone.getD r.timezone } else r
  let r := if EventField.is_all_day ∈ changed then
    { r with is_all_day := if p.is_all_day.getD false then 1 else 0 } else r
  let r := if EventField.location ∈ changed then { r with location := p.location } else r
  let r := if EventField.reminder_minutes ∈ changed then
    { r with reminder_minutes := p.reminder_minutes } else r
  { r with updated_at := now, updated_by := userId, version := r.version + 1 }

/-- `SELECT * FROM events WHERE id = ? AND deleted_at IS NULL` (`get`
returns the first matching row). -/
def findCurrentEvent (s : DBState) (id : Nat) : Option EventRow :=
  s.events.find? (fun r => r.id == id && r.deleted_at == none)

/-! ### Event Store operations -/

/-- `updateEnhancedEvent`: load, diff, no-op on an empty diff, otherwise
one transaction (row update with version bump + audit entry) followed by
`invalidateCache("events")`. -/
def updateEnhancedEvent (s : DBState) (eventId : Nat) (p : UpdatePayload)
    (userId : Option String) (now : String) : Bool × DBState :=
  match findCurrentEvent s eventId with
  | none => (false, s)
  | some currentEvent =>
    let changed := changedFields p currentEvent
    if changed = [] then (true, s)
    else
      if (s.events.filter (fun r => r.id == eventId && r.deleted_at == none)).length = 0 then
        (false, s)
      else
        let events' := s.events.map (fun r =>
          if r.id == eventId && r.deleted_at == none then
            applySetClause changed p userId now r
          else r)
        let entry : AuditEntry :=
          { event_id := eventId
            action := "updated"
            changed_fields := some (.fieldNames (changed.map fieldName))
            old_values := some (.pairs (changed.map (fun f => (fieldName f, rowGet currentEvent f))))
            new_values := some (.pairs (changed.map (fun f => (fieldName f, (payloadGet p f).getD .vNull))))
            changed_by := userId
            changed_at := now }
        (true,
         { s with
           events := events'
           event_history := s.event_history ++ [entry]
           queryCache := invalidateCachePattern s.queryCache "events" })

/-- `eventData.description || null` (the empty string is falsy). -/
def jsOrNullStr (x : Option String) : Option String :=
  match x with
  | some s => if s = "" then none else some s
  | none => none

/-- `eventData.timezone || "UTC"`. -/
def jsOrUTC (x : Option String) : String :=
  match x with
  | some s => if s = "" then "UTC" else s
  | none => "UTC"

/-- `eventData.reminder_minutes || null` (0 is falsy). -/
def jsOrNullInt (x : Option Int) : Option Int :=
  match x with
  | some n => if n = 0 then none else some n
  | none => none

/-- `createEnhancedEvent`: one transaction inserting the event row, one
`created` audit entry, and — when `reminder_minutes` is truthy — the
first reminder row; then `invalidateCache("events")`.  Returns the new
row id. -/
def createEnhancedEvent (s : DBState) (d : CreateEventData)
    (userId : Option String) (now : String) : Option Nat × DBState :=
  let eventId := s.nextId
  let row : EventRow :=
    { id := eventId
      title := d.title
      description := jsOrNullStr d.description
      date := d.date
      timezone := jsOrUTC d.timezone
      is_all_day := if d.is_all_day = some true then 1 else 0
      location := jsOrNullStr d.location
      category := d.category
      priority := d.priority
      is_recurring := if d.is_recurring then 1 else 0
      recurring_config := d.recurring_config.map serializeConfig
      reminder_minutes := d.reminder_minutes
      created_at := now
      updated_at := now
      created_by := userId
      updated_by := userId
      version := 1
      deleted_at := none }
  let entry : AuditEntry :=
    { event_id := eventId, action := "created"
      new_values := some (.createData d)
      changed_by := userId, changed_at := now }
  let reminders :=
    match d.reminder_minutes with
    | some m =>
      if m ≠ 0 then
        s.event_reminders ++
          [{ event_id := eventId
             reminder_time := (parseISO d.date).map (fun z => z * 1440 - m) }]
      else s.event_reminders
    | none => s.event_reminders
  (some eventId,
   { s with
     nextId := s.nextId + 1
     events := s.events ++ [row]
     event_history := s.event_history ++ [entry]
     event_reminders := reminders
     queryCache := invalidateCachePattern s.queryCache "events" })

/-- `deleteEvent`: soft delete (sets `deleted_at`, `updated_by`, bumps
`version`), appends a `deleted` audit entry with the pre-delete snapshot,
cancels pending reminders; `invalidateCache("events")` on success. -/
def deleteEvent (s : DBState) (id : Nat) (userId : Option String)
    (now : String) : Bool × DBState :=
  match findCurrentEvent s id with
  | none => (false, s)
  | some event =>
    if (s.events.filter (fun r => r.id == id && r.deleted_at == none)).length = 0 then
      (false, s)
    else
      let events' := s.events.map (fun r =>
        if r.id == id && r.deleted_at == none then
          { r with deleted_at := some now, updated_by := userId, version := r.version + 1 }
        else r)
      let entry : AuditEntry :=
        { event_id := id, action := "deleted"
          old_values := some (.rowSnapshot event)
          changed_by := userId, changed_at := now }
      let reminders' := s.event_reminders.map (fun rm =>
        if rm.event_id == id && rm.status == "pending" then
          { rm with status := "cancelled" }
        else rm)
      (true,
       { s with
         events := events'
         event_history := s.event_history ++ [entry]
         event_reminders := reminders'
         queryCache := invalidateCachePattern s.queryCache "events" })

/-- `restoreEvent`: clears `deleted_at` on a soft-deleted row, sets
`updated_by`, bumps `version`, appends a `restored` audit entry;
`invalidateCache("events")` on success. -/
def restoreEvent (s : DBState) (id : Nat) (userId : Option String)
    (now : String) : Bool × DBState :=
  if (s.events.filter (fun r => r.id == id && r.deleted_at != none)).length = 0 then
    (false, s)
  else
    let events' := s.events.map (fun r =>
      if r.id == id && r.deleted_at != none then
        { r with deleted_at := none, updated_by := userId, version := r.version + 1 }
      else r)
    let entry : AuditEntry :=
      { event_id := id, action := "restored"
        changed_by := userId, changed_at := now }
    (true,
     { s with
       events := events'
       event_history := s.event_history ++ [entry]
       queryCache := invalidateCachePattern s.queryCache "events" })

/-! ### Read paths (`getFilteredEvents`, `getFilteredEventsCount`,
`getEventStats`) -/

/-- `EventFilters` (lib/database.ts). -/
structure EventFilters where
  category : Option String := none
  priority : Option String := none
  date_from : Option String := none
  date_to : Option String := none
  search_term : Option String := none
  show_recurring : Option Bool := none
  show_past : Option Bool := none
deriving DecidableEq, Repr

/-- `JSON.stringify(filters)` with the interface's member order and
`undefined` members omitted. -/
def serializeFilters (f : EventFilters) : String :=
  "\x7b" ++
  String.intercalate ","
    (([f.category.map (fun v => "\"category\":" ++ jsonString v),
       f.priority.map (fun v => "\"priority\":" ++ jsonString v),
       f.date_from.map (fun v => "\"date_from\":" ++ jsonString v),
       f.date_to.map (fun v => "\"date_to\":" ++ jsonString v),
       f.search_term.map (fun v => "\"search_term\":" ++ jsonString v),
       f.show_recurring.map (fun v => "\"show_recurring\":" ++ (if v then "true" else "false")),
       f.show_past.map (fun v => "\"show_past\":" ++ (if v then "true" else "false"))]).filterMap id) ++
  "\x7d"

def filteredEventsKey (filters : EventFilters) (limit offset : Nat) : String :=
  "filtered_events_" ++ serializeFilters filters ++ "_" ++ toString limit ++ "_" ++ toString offset

def filteredEventsCountKey (filters : EventFilters) : String :=
  "filtered_events_count_" ++ serializeFilters filters

/-- Values of the SQLite `datetime` expressions used in the queries,
supplied by the SQL engine's clock. -/
structure SqlClock where
  now : String
  monthStart : String
  monthNext : String
deriving DecidableEq, Repr

/-- SQLite `LIKE '%pat%'` on TEXT — case-insensitive containment (ASCII). -/
def sqlLikeContains (text pat : String) : Bool :=
  containsSublist (pat.data.map Char.toLower) (text.data.map Char.toLower)

/-- The WHERE clause `getFilteredEvents` builds: soft-delete exclusion
plus the truthiness-guarded filter conditions, in the source's order. -/
def rowMatchesFilters (filters : EventFilters) (clock : SqlClock) (r : EventRow) : Bool :=
  r.deleted_at == none &&
  (match filters.date_from with
   | some v => if v = "" then true else strLe v r.date
   | none => true) &&
  (match filters.date_to with
   | some v => if v = "" then true else strLe r.date v
   | none => true) &&
  (match filters.category with
   | some v => if v = "" then true else r.category == v
   | none => true) &&
  (match filters.priority with
   | some v => if v = "" then true else r.priority == v
   | none => true) &&
  (match filters.search_term with
   | some v => if v = "" then true else sqlLikeContains (searchTextOf r) (jsTrim v)
   | none => true) &&
  (if filters.show_recurring == some false then r.is_recurring == 0 else true) &&
  (if filters.show_past == some true then true else strLe clock.now r.date)

def insertByDateAsc (x : EventRow) : List EventRow → List EventRow
  | [] => [x]
  | y :: ys => if strLt x.date y.date then x :: y :: ys else y :: insertByDateAsc x ys

/-- `ORDER BY date ASC` (stable insertion sort). -/
def sortRowsByDateAsc (l : List EventRow) : List EventRow :=
  l.foldl (fun acc x => insertByDateAsc x acc) []

/-- The SQL result of `getFilteredEvents`' query:
filter, `ORDER BY date ASC`, `LIMIT ? OFFSET ?`. -/
def queryFilteredRows (events : List EventRow) (filters : EventFilters)
    (clock : SqlClock) (limit offset : Nat) : List EventRow :=
  ((sortRowsByDateAsc (events.filter (rowMatchesFilters filters clock))).drop offset).take limit

/-- `parseEventFromDB` / the row-parsing `map` in `getFilteredEvents`:
JSON column parsed, 0/1 columns to booleans, `version || 1`. -/
def parseEventFromDB (r : EventRow) : EnhancedEvent :=
  { id := r.id
    title := r.title
    date := r.date
    description := r.description
    is_recurring := r.is_recurring != 0
    recurring_config := r.recurring_config.bind parseConfigJson
    category := r.category
    priority := r.priority
    location := r.location
    reminder_minutes := r.reminder_minutes
    is_all_day := r.is_all_day != 0
    timezone := r.timezone
    created_at := r.created_at
    updated_at := r.updated_at
    created_by := r.created_by
    updated_by := r.updated_by
    version := if r.version = 0 then 1 else r.version
    deleted_at := r.deleted_at }

/-- The freshly computed (cache-miss) result of `getFilteredEvents`. -/
def freshFilteredEvents (events : List EventRow) (filters : EventFilters)
    (clock : SqlClock) (limit offset : Nat) : List EnhancedEvent :=
  (queryFilteredRows events filters clock limit offset).map parseEventFromDB

/-- The unchecked `cached.data as T` cast of the read paths; in every
reachable state the entry under an events-list key holds an events list. -/
def asEventsList : CacheData → List EnhancedEvent
  | .eventsList l => l
  | _ => []

/-- `getFilteredEvents`: cache-first read-through with TTL, caching the
parsed result for `DEFAULT_CACHE_TTL` on a miss. -/
def getFilteredEvents (s : DBState) (filters : EventFilters) (limit offset : Nat)
    (clock : SqlClock) (nowMs : Int) : List EnhancedEvent × DBState :=
  let cacheKey := filteredEventsKey filters limit offset
  let hit := getCachedResult s.queryCache cacheKey nowMs
  match hit.1 with
  | some cached => (asEventsList cached, { s with queryCache := hit.2 })
  | none =>
    let parsedResults := freshFilteredEvents s.events filters clock limit offset
    (parsedResults,
     { s with queryCache :=
         setCachedResult hit.2 cacheKey (.eventsList parsedResults) nowMs DEFAULT_CACHE_TTL })

def asCount : CacheData → Nat
  | .countVal n => n
  | _ => 0

/-- `getFilteredEventsCount`: the COUNT twin of `getFilteredEvents`
(no pagination), cached for two minutes. -/
def getFilteredEventsCount (s : DBState) (filters : EventFilters)
    (clock : SqlClock) (nowMs : Int) : Nat × DBState :=
  let cacheKey := filteredEventsCountKey filters
  let hit := getCachedResult s.queryCache cacheKey nowMs
  match hit.1 with
  | some cached => (asCount cached, { s with queryCache := hit.2 })
  | none =>
    let count := (s.events.filter (rowMatchesFilters filters clock)).length
    (count,
     { s with queryCache :=
         setCachedResult hit.2 cacheKey (.countVal count) nowMs (2 * 60 * 1000) })

/-- `ORDER BY date ASC, priority = 'high' DESC` of the `next_event`
query: strictly earlier date first, high priority first on a tie. -/
def nextEventBefore (a b : EventRow) : Bool :=
  strLt a.date b.date || (a.date == b.date && a.priority == "high" && b.priority != "high")

def insertByNextOrder (x : EventRow) : List EventRow → List EventRow
  | [] => [x]
  | y :: ys => if nextEventBefore x y then x :: y :: ys else y :: insertByNextOrder x ys

/-- The statistics aggregate of `getEventStats`, computed over the live
(`deleted_at IS NULL`) rows. -/
def computeEventStats (events : List EventRow) (clock : SqlClock) : CacheData :=
  let live := events.filter (fun r => r.deleted_at == none)
  let upcoming := live.filter (fun r => strLe clock.now r.date)
  let nextSorted := upcoming.foldl (fun acc x => insertByNextOrder x acc) []
  .statsVal live.length upcoming.length
    (live.filter (fun r => strLt r.date clock.now)).length
    (live.filter (fun r => r.is_recurring == 1)).length
    (live.filter (fun r => strLe clock.monthStart r.date && strLt r.date clock.monthNext)).length
    (nextSorted.head?.map parseEventFromDB)

/-- `getEventStats`: cached under the key `"event_stats"` with a
60-second TTL. -/
def getEventStats (s : DBState) (clock : SqlClock) (nowMs : Int) :
    CacheData × DBState :=
  let hit := getCachedResult s.queryCache "event_stats" nowMs
  match hit.1 with
  | some cached => (cached, { s with queryCache := hit.2 })
  | none =>
    let result := computeEventStats s.events clock
    (result,
     { s with queryCache :=
         setCachedResult hit.2 "event_stats" result nowMs (60 * 1000) })

/-- An Event Store write, for stating properties uniform in the four
mutating operations. -/
inductive EventWriteOp where
  | createOp (d : CreateEventData) (userId : Option String)
  | updateOp (id : Nat) (p : UpdatePayload) (userId : Option String)
  | deleteOp (id : Nat) (userId : Option String)
  | restoreOp (id : Nat) (userId : Option String)

/-- Run a write; the `Bool` is its success (for `create`, a non-null id). -/
def applyEventWrite (s : DBState) (op : EventWriteOp) (now : String) :
    Bool × DBState :=
  match op with
  | .createOp d userId =>
    let r := createEnhancedEvent s d userId now
    (r.1.isSome, r.2)
  | .updateOp id p userId => updateEnhancedEvent s id p userId now
  | .deleteOp id userId => deleteEvent s id userId now
  | .restoreOp id userId => restoreEvent s id userId now

/-- The write modifies the store: any write except an update whose
field-level diff against the current row is empty (such an update
returns success without writing and without touching the cache). -/
def opInvalidates (s : DBState) (op : EventWriteOp) : Prop :=
  match op with
  | .updateOp id p _ => ∀ row, findCurrentEvent s id = some row → changedFields p row ≠ []
  | _ => True

/-! ## Events API (`pages/api/events/index.ts`): `InputSanitizer`,
`handleCreateEvent` -/

def lowerEqChar (a b : Char) : Bool := a.toLower == b.toLower

def ciIsPrefixOf : List Char → List Char → Bool
  | [], _ => true
  | _ :: _, [] => false
  | p :: ps, c :: cs => lowerEqChar p c && ciIsPrefixOf ps cs

/-- Single left-to-right pass removing each case-insensitive occurrence
of `pat`, as `String.prototype.replace` with a global case-insensitive
literal pattern does (the scan resumes after a removed match and does not
re-examine the spliced text). -/
def removeAllCIGo (pat : List Char) : Nat → List Char → List Char
  | 0, rest => rest
  | _, [] => []
  | fuel + 1, c :: cs =>
    if pat ≠ [] && ciIsPrefixOf pat (c :: cs) then
      removeAllCIGo pat fuel ((c :: cs).drop pat.length)
    else c :: removeAllCIGo pat fuel cs

def removeAllCI (pat : List Char) (l : List Char) : List Char :=
  removeAllCIGo pat l.length l

def dropUntilCloseScript : Nat → List Char → Option (List Char)
  | 0, _ => none
  | _, [] => none
  | fuel + 1, c :: cs =>
    if ciIsPrefixOf "</script>".data (c :: cs) then some ((c :: cs).drop 9)
    else dropUntilCloseScript fuel cs

/-- The `<script…>…</script>` stripping regex of `sanitizeString`,
modelled as: a case-insensitive `<script` opener with a subsequent
`</script>` closer is removed inclusively, left to right; an opener with
no closer is kept.  (The regex's `\b` and `[^<]*` refinements only
affect pathological inputs; no claim exercises them.) -/
def removeScriptBlocksGo : Nat → List Char → List Char
  | 0, rest => rest
  | _, [] => []
  | fuel + 1, c :: cs =>
    if ciIsPrefixOf "<script".data (c :: cs) then
      match dropUntilCloseScript (c :: cs).length (c :: cs) with
      | some rest => removeScriptBlocksGo fuel rest
      | none => c :: removeScriptBlocksGo fuel cs
    else c :: removeScriptBlocksGo fuel cs

/-- `InputSanitizer.sanitizeString`: trim, cap the length, strip script
blocks and the `javascript:`/`data:`/`vbscript:` protocols. -/
def sanitizeString (input : String) (maxLength : Nat) : String :=
  let s := (jsTrim input).data.take maxLength
  let s := removeScriptBlocksGo s.length s
  let s := removeAllCI "javascript:".data s
  let s := removeAllCI "data:".data s
  let s := removeAllCI "vbscript:".data s
  String.mk s

def dateRegexTail : List Char → Bool
  | [] => true
  | ['Z'] => true
  | '.' :: a :: b :: c :: rest =>
    a.isDigit && b.isDigit && c.isDigit && (rest = [] || rest = ['Z'])
  | _ => false

/-- The sanitizer's ISO-8601 shape check
`/^\d\x7b4\x7d-\d\x7b2\x7d-\d\x7b2\x7dT\d\x7b2\x7d:\d\x7b2\x7d:\d\x7b2\x7d(?:\.\d\x7b3\x7d)?Z?$/`. -/
def matchesDateRegex (s : String) : Bool :=
  match s.data with
  | y1 :: y2 :: y3 :: y4 :: '-' :: m1 :: m2 :: '-' :: d1 :: d2 ::
      'T' :: h1 :: h2 :: ':' :: mi1 :: mi2 :: ':' :: s1 :: s2 :: rest =>
    y1.isDigit && y2.isDigit && y3.isDigit && y4.isDigit &&
    m1.isDigit && m2.isDigit && d1.isDigit && d2.isDigit &&
    h1.isDigit && h2.isDigit && mi1.isDigit && mi2.isDigit &&
    s1.isDigit && s2.isDigit && dateRegexTail rest
  | _ => false

/-- The request body of the events POST route (`req.body`, duck-typed in
the source); `none` is an absent member. -/
structure CreateRequestBody where
  title : Option String := none
  description : Option String := none
  location : Option String := none
  date : Option String := none
  is_recurring : Option Bool := none
  is_all_day : Option Bool := none
  category : Option String := none
  priority : Option String := none
  timezone : Option String := none
  recurring_config : Option RecurringEventConfig := none
  reminder_minutes : Option Int := none
deriving DecidableEq, Repr

/-- `Partial<EventFormData>` (types/event.ts), the sanitizer's output. -/
structure EventFormData where
  title : Option String := none
  date : Option String := none
  description : Option String := none
  is_recurring : Option Bool := none
  recurring_config : Option RecurringEventConfig := none
  category : Option String := none
  priority : Option String := none
  location : Option String := none
  reminder_minutes : Option Int := none
  is_all_day : Option Bool := none
  timezone : Option String := none
deriving DecidableEq, Repr

/-- The `Intl.DateTimeFormat` timezone validity probe.  The timezone
database is an external collaborator (spec §6); it is modelled as
accepting every name, and no claim depends on its verdict. -/
def intlSupportsTimeZone (_ : String) : Bool := true

/-- `InputSanitizer.sanitizeEventData`: copies `title`, `description`,
`location` (scrubbed), `date` (shape-checked), the two booleans
(type-checked), `category`/`priority` (whitelisted) and `timezone`
(probed) into a fresh `Partial<EventFormData>`.  The body's
`recurring_config` and `reminder_minutes` members are never copied. -/
def sanitizeEventData (data : CreateRequestBody) : EventFormData :=
  let sanitized : EventFormData := {}
  let sanitized :=
    match data.title with
    | some t => if t ≠ "" then { sanitized with title := some (sanitizeString t 100) } else sanitized
    | none => sanitized
  let sanitized :=
    match data.description with
    | some t => if t ≠ "" then { sanitized with description := some (sanitizeString t 1000) } else sanitized
    | none => sanitized
  let sanitized :=
    match data.location with
    | some t => if t ≠ "" then { sanitized with location := some (sanitizeString t 200) } else sanitized
    | none => sanitized
  let sanitized :=
    match data.date with
    | some ds => if matchesDateRegex ds then { sanitized with date := some ds } else sanitized
    | none => sanitized
  let sanitized :=
    match data.is_recurring with
    | some b => { sanitized with is_recurring := some b }
    | none => sanitized
  let sanitized :=
    match data.is_all_day with
    | some b => { sanitized with is_all_day := some b }
    | none => sanitized
  let sanitized :=
    match data.category with
    | some c =>
      if c = "anniversary" ∨ c = "birthday" ∨ c = "date" ∨ c = "milestone" ∨ c = "other" then
        { sanitized with category := some c }
      else sanitized
    | none => sanitized
  let sanitized :=
    match data.priority with
    | some c =>
      if c = "low" ∨ c = "medium" ∨ c = "high" then { sanitized with priority := some c }
      else sanitized
    | none => sanitized
  let sanitized :=
    match data.timezone with
    | some tz =>
      if tz ≠ "" then
        { sanitized with timezone := some (if intlSupportsTimeZone tz then tz else "UTC") }
      else sanitized
    | none => sanitized
  sanitized

/-! ### `EventValidator.validateEventData` (utils/eventUtils.ts) -/

def MIN_DATE_DAYS : Int := daysFromCivil 1900 1 1
def MAX_DATE_DAYS : Int := daysFromCivil 2100 12 31

/-- The regex `/<[^>]*>/` tests positive exactly when some `<` is
followed (later) by some `>`. -/
def containsHtmlTagsGo : List Char → Bool → Bool
  | [], _ => false
  | c :: cs, sawLt =>
    if sawLt && c = '>' then true
    else containsHtmlTagsGo cs (sawLt || c = '<')

def containsHtmlTags (s : String) : Bool := containsHtmlTagsGo s.data false

/-- `EventValidator.validateDate`: required, parseable, within
[1900-01-01, 2100-12-31], timezone usable by the formatter (an undefined
timezone formats in the local zone and does not throw). -/
def validateDateField (dateString : Option String) (timezone : Option String) :
    Option EventValidationError :=
  match dateString with
  | none => some { field := "date", message := "Event date is required" }
  | some ds =>
    if ds = "" then some { field := "date", message := "Event date is required" }
    else
      match parseISO ds with
      | none => some { field := "date", message := "Invalid date format" }
      | some z =>
        if z < MIN_DATE_DAYS || z > MAX_DATE_DAYS then
          some { field := "date", message := "Date must be between 1900 and 2100" }
        else
          match timezone with
          | some tz =>
            if intlSupportsTimeZone tz then none
            else some { field := "timezone", message := "Invalid timezone" }
          | none => none

/-- `EventValidator.validateEventData`, error order as pushed by the
source: title, date, description, location, recurring config, reminder. -/
def validateEventData (data : EventFormData) : List EventValidationError :=
  (match data.title with
   | none => [{ field := "title", message := "Event title is required" }]
   | some t =>
     if jsTrim t = "" then [{ field := "title", message := "Event title is required" }]
     else if jsStrLength t > 100 then
       [{ field := "title", message := "Title cannot exceed 100 characters" }]
     else if containsHtmlTags t then
       [{ field := "title", message := "Title cannot contain HTML tags" }]
     else []) ++
  (match validateDateField data.date data.timezone with
   | some e => [e]
   | none => []) ++
  (match data.description with
   | some d =>
     if jsStrLength d > 1000 then
       [{ field := "description", message := "Description cannot exceed 1000 characters" }]
     else []
   | none => []) ++
  (match data.location with
   | some l =>
     if jsStrLength l > 200 then
       [{ field := "location", message := "Location cannot exceed 200 characters" }]
     else []
   | none => []) ++
  (match data.is_recurring, data.recurring_config with
   | some true, some config => validateRecurringConfig config
   | _, _ => []) ++
  (match data.reminder_minutes with
   | some m =>
     if m < 0 || m > 10080 then
       [{ field := "reminder_minutes",
          message := "Reminder must be between 0 and 10080 minutes (1 week)" }]
     else []
   | none => [])

/-- `DatabaseManager.addEvent` (legacy wrapper): forwards title, date,
description (`|| ""`) and the recurring flag to `createEnhancedEvent`
with fixed category/priority/timezone and no recurring config, reminder
or actor. -/
def addEvent (s : DBState) (formData : EventFormData) (now : String) :
    Option Nat × DBState :=
  createEnhancedEvent s
    { title := formData.title.getD ""
      date := formData.date.getD ""
      description := some (formData.description.getD "")
      is_recurring := formData.is_recurring.getD false
      category := "other"
      priority := "medium"
      is_all_day := some false
      timezone := some "UTC" }
    none now

inductive CreateEventOutcome where
  | validationError (errors : List EventValidationError)
  | created (eventId : Nat) (state : DBState)
  | createFailed (state : DBState)
deriving DecidableEq, Repr

/-- `handleCreateEvent` (pages/api/events/index.ts), its decision logic
after authentication (out of scope per spec §6): sanitize, validate —
a non-empty error list answers 400 `VALIDATION_ERROR` with no store call —
otherwise persist through `db.addEvent`.  Storage-layer failures
(`StorageError`) are external and not modelled, so the insert path always
yields an id. -/
def handleCreateEvent (s : DBState) (body : CreateRequestBody) (now : String) :
    CreateEventOutcome :=
  let sanitizedData := sanitizeEventData body
  let validationErrors := validateEventData sanitizedData
  if validationErrors ≠ [] then .validationError validationErrors
  else
    match addEvent s sanitizedData now with
    | (some eventId, s') => .created eventId s'
    | (none, s') => .createFailed s'

/-! ## Concrete fixtures for witnesses and counterexamples -/

/-- The monthly event of the spec's scenario: anchored 2025-01-31,
monthly, interval 1, no end date, no day-of-month target. -/
def monthlyAnchor31 : EnhancedEvent :=
  { id := 1, title := "Monthly dinner", date := "2025-01-31", is_recurring := true
    recurring_config := some { frequency := "monthly", interval := 1 }
    category := "date", priority := "medium" }

/-- A daily event whose rule ends 2025-01-02. -/
def dailyWithEndDate : EnhancedEvent :=
  { id := 2, title := "Daily checkin", date := "2025-01-01", is_recurring := true
    recurring_config := some
      { frequency := "daily", interval := 1, end_date := some "2025-01-02" }
    category := "other", priority := "medium" }

/-- A recurrence rule whose frequency is not one of the four supported
literals; its interval, end date and occurrence cap are all in range. -/
def hourlyConfig : RecurringEventConfig := { frequency := "hourly", interval := 1 }

def hourlyEvent : EnhancedEvent :=
  { id := 3, title := "Hourly sync", date := "2025-01-01", is_recurring := true
    recurring_config := some hourlyConfig
    category := "other", priority := "medium" }

/-- A low-priority event carrying a 30-minute `reminder_minutes`
override. -/
def lowPriorityOverrideEvent : EnhancedEvent :=
  { id := 4, title := "Low stakes", date := "2025-06-01", is_recurring := false
    category := "other", priority := "low", reminder_minutes := some 30 }

def basePreferences : NotificationPreferences :=
  { user_id := "u1", reminder_times := [120] }

/-- A high-priority anniversary event. -/
def highAnniversaryEvent : EnhancedEvent :=
  { id := 5, title := "Ten years", date := "2025-09-01", is_recurring := false
    category := "anniversary", priority := "high" }

/-- A stored (column-level) event row last touched by `alice`. -/
def storedRow : EventRow :=
  { id := 1, title := "Anniversary", date := "2025-06-01T00:00:00Z"
    is_recurring := 1, category := "anniversary", priority := "high"
    version := 3, created_at := "2025-01-01 00:00:00", updated_at := "2025-01-02 00:00:00"
    created_by := some "alice", updated_by := some "alice" }

def oneRowState : DBState := { nextId := 2, events := [storedRow] }

/-- An update payload whose only defined member carries exactly the value
the row stores, expressed as the JavaScript boolean (the column holds the
integer 1). -/
def boolEchoPayload : UpdatePayload := { is_recurring := some true }

/-- An update payload echoing the stored title verbatim. -/
def titleEchoPayload : UpdatePayload := { title := some "Anniversary" }

/-- A cache as left by earlier reads: a stats entry, a filtered-list
entry and a count entry. -/
def staleCache : List (String × CacheEntry) :=
  [("event_stats",
    { data := .statsVal 1 1 0 0 1 none, timestamp := 1000, ttl := 60 * 1000 }),
   (filteredEventsKey {} 20 0,
    { data := .eventsList [], timestamp := 1000, ttl := DEFAULT_CACHE_TTL }),
   (filteredEventsCountKey {},
    { data := .countVal 1, timestamp := 1000, ttl := 2 * 60 * 1000 })]

def cachedState : DBState :=
  { nextId := 2, events := [storedRow], queryCache := staleCache }

def sampleClock : SqlClock :=
  { now := "2025-01-05 00:00:00"
    monthStart := "2025-01-01 00:00:00"
    monthNext := "2025-02-01 00:00:00" }

def sampleCreateData : CreateEventData :=
  { title := "Picnic", date := "2025-07-01T00:00:00Z", is_recurring := false
    category := "date", priority := "medium" }

/-- The occurrence list `calculateOccurrences` returns for
`dailyWithEndDate` over the window [2025-01-01, 2025-01-10]: the rule's
end date 2025-01-02 notwithstanding, 2025-01-03 is emitted before the
end-date check breaks the loop. -/
def dailyEndOccurrences : List EventOccurrence :=
  [mkOccurrence 2 (some (daysFromCivil 2025 1 1)) 0,
   mkOccurrence 2 (some (daysFromCivil 2025 1 2)) 1,
   mkOccurrence 2 (some (daysFromCivil 2025 1 3)) 2]

/-- A POST body whose recurrence rule has `interval = 400`. -/
def interval400Config : RecurringEventConfig := { frequency := "daily", interval := 400 }

def interval400Body : CreateRequestBody :=
  { title := some "Dinner", date := some "2025-06-01T18:00:00Z"
    is_recurring := some true
    recurring_config := some interval400Config }

/-! # Theorems -/

/-! ## Loop lemmas for the Occurrence Calculator -/

theorem getNextOccurrenceDate_ne_outOfFuel (cur : Option Int)
    (config : RecurringEventConfig) :
    getNextOccurrenceDate cur config ≠ .error .outOfFuel := by
  unfold getNextOccurrenceDate
  split <;> (try split) <;> simp

theorem getNextOccurrenceDate_supported (cur : Option Int)
    (config : RecurringEventConfig)
    (h : config.frequency = "daily" ∨ config.frequency = "weekly" ∨
      config.frequency = "monthly" ∨ config.frequency = "yearly") :
    ∃ d, getNextOccurrenceDate cur config = .ok d := by
  unfold getNextOccurrenceDate
  rcases h with h | h | h | h <;> rw [h]
  · exact ⟨_, rfl⟩
  · show ∃ d, (if (config.days_of_week.getD []).length > 0 then
        (Except.ok (getNextWeeklyOccurrence cur config) : Except CalcError (Option Int))
      else Except.ok (jsAddWeeks config.interval cur)) = Except.ok d
    split
    · exact ⟨_, rfl⟩
    · exact ⟨_, rfl⟩
  · show ∃ d, (if config.day_of_month.getD 0 ≠ 0 then
        (Except.ok (getNextMonthlyOccurrence cur config) : Except CalcError (Option Int))
      else Except.ok (jsAddMonths config.interval cur)) = Except.ok d
    split
    · exact ⟨_, rfl⟩
    · exact ⟨_, rfl⟩
  · exact ⟨_, rfl⟩

/-- Above 10001 units the loop's result does not depend on the fuel: the
safety valve (or an earlier termination check) always fires first. -/
theorem calcLoop_fuel_irrel (eventId : Nat) (config : RecurringEventConfig)
    (startDate endDate : Int) (maxOcc : Nat) :
    ∀ f g cur idx acc, 10001 - idx < f → 10001 - idx < g →
      calcLoop eventId config startDate endDate maxOcc f cur idx acc =
        calcLoop eventId config startDate endDate maxOcc g cur idx acc := by
  intro f
  induction f with
  | zero => intro g cur idx acc hf hg; omega
  | succ a ih =>
    intro g cur idx acc hf hg
    match g with
    | 0 => omega
    | b + 1 =>
      simp only [calcLoop]
      split
      · split
        · rfl
        · split
          · rfl
          · split
            · rfl
            · split
              · rfl
              · split
                · rfl
                · exact ih b _ _ _ (by omega) (by omega)
      · rfl

/-- The embedding's fuel-exhaustion marker is unreachable from 10002
fuel units: the loop terminates within the source's iteration budget. -/
theorem calcLoop_no_fuel_error (eventId : Nat) (config : RecurringEventConfig)
    (startDate endDate : Int) (maxOcc : Nat) :
    ∀ f cur idx acc, 10001 - idx < f →
      calcLoop eventId config startDate endDate maxOcc f cur idx acc ≠
        .error .outOfFuel := by
  intro f
  induction f with
  | zero => intro cur idx acc hf; omega
  | succ a ih =>
    intro cur idx acc hf
    simp only [calcLoop]
    split
    · split
      · simp
      · split
        · simp
        · split
          · simp
          · split
            next e heq =>
              intro hc
              injection hc with hc2
              rw [hc2] at heq
              exact getNextOccurrenceDate_ne_outOfFuel _ _ heq
            next nextDate heq =>
              split
              · simp
              · exact ih _ _ _ (by omega)
    · simp

/-- With a supported frequency the loop never throws. -/
theorem calcLoop_supported_ok (eventId : Nat) (config : RecurringEventConfig)
    (startDate endDate : Int) (maxOcc : Nat)
    (hfreq : config.frequency = "daily" ∨ config.frequency = "weekly" ∨
      config.frequency = "monthly" ∨ config.frequency = "yearly") :
    ∀ f cur idx acc, 10001 - idx < f →
      ∃ l, calcLoop eventId config startDate endDate maxOcc f cur idx acc = .ok l := by
  intro f
  induction f with
  | zero => intro cur idx acc hf; omega
  | succ a ih =>
    intro cur idx acc hf
    simp only [calcLoop]
    split
    · split
      · exact ⟨_, rfl⟩
      · split
        · exact ⟨_, rfl⟩
        · split
          · exact ⟨_, rfl⟩
          · split
            next e heq =>
              obtain ⟨d, hd⟩ := getNextOccurrenceDate_supported cur config hfreq
              rw [heq] at hd
              simp at hd
            next nextDate heq =>
              split
              · exact ⟨_, rfl⟩
              · exact ih _ _ _ (by omega)
    · exact ⟨_, rfl⟩

/-- If every occurrence accumulated so far has date at most `D` (the
parsed end date), every occurrence the loop returns except possibly the
last does too: the end-date check runs right after the emission, so at
most the one occurrence emitted in the breaking iteration can exceed it. -/
theorem calcLoop_end_date_bound (eventId : Nat) (config : RecurringEventConfig)
    (startDate endDate : Int) (maxOcc : Nat) (s : String) (D : Int)
    (hend : config.end_date = some s) (hs : s ≠ "") (hD : parseISO s = some D) :
    ∀ f cur idx acc l,
      (∀ o ∈ acc, ∀ z, o.date = some z → z ≤ D) →
      calcLoop eventId config startDate endDate maxOcc f cur idx acc = .ok l →
      ∀ o ∈ l.dropLast, ∀ z, o.date = some z → z ≤ D := by
  intro f
  induction f with
  | zero =>
    intro cur idx acc l hacc hrun
    simp [calcLoop] at hrun
  | succ a ih =>
    intro cur idx acc l hacc hrun
    have hDropAcc : ∀ o ∈ acc.dropLast, ∀ z, o.date = some z → z ≤ D :=
      fun o ho => hacc o (List.dropLast_subset acc ho)
    simp only [calcLoop] at hrun
    split at hrun
    · split at hrun
      · -- end-date break: the freshly emitted occurrence (if any) is last
        injection hrun with hl
        subst hl
        unfold emitList
        split
        · rw [List.dropLast_concat]
          intro o ho
          exact hacc o ho
        · exact hDropAcc
      · -- the end-date check passed: the current date is at most D
        have hcur : ∀ z, cur = some z → z ≤ D := by
          intro z hz
          subst hz
          rename_i hlen hEnd
          simp [endDateExceeded, hend, hD, jsIsAfter, hs] at hEnd
          omega
        have hacc' : ∀ o ∈ emitList eventId startDate endDate cur idx acc,
            ∀ z, o.date = some z → z ≤ D := by
          intro o ho z hz
          unfold emitList at ho
          split at ho
          · rcases List.mem_append.1 ho with h | h
            · exact hacc o h z hz
            · simp only [List.mem_singleton] at h
              subst h
              exact hcur z hz
          · exact hacc o ho z hz
        have hDrop' : ∀ o ∈ (emitList eventId startDate endDate cur idx acc).dropLast,
            ∀ z, o.date = some z → z ≤ D :=
          fun o ho => hacc' o (List.dropLast_subset _ ho)
        split at hrun
        · injection hrun with hl; subst hl; exact hDrop'
        · split at hrun
          · injection hrun with hl; subst hl; exact hDrop'
          · split at hrun
            next e heq => cases hrun
            next nextDate heq =>
              split at hrun
              · injection hrun with hl; subst hl; exact hDrop'
              · exact ih _ _ _ _ hacc' hrun
    · injection hrun with hl; subst hl; exact hDropAcc

/-! ## C1 -/

/-- C1, counterexample: for the daily event whose rule ends 2025-01-02,
the window [2025-01-01, 2025-01-10] yields an occurrence (2025-01-03)
strictly after the end date — the loop emits before it checks `end_date`,
so the claim "the end_date termination check stops the loop before
emitting such an occurrence" is false. -/
theorem calculateOccurrences_emits_after_end_date :
    dailyWithEndDate.recurring_config = some
      { frequency := "daily", interval := 1, end_date := some "2025-01-02" } ∧
    ((calculateOccurrences dailyWithEndDate (daysFromCivil 2025 1 1)
        (daysFromCivil 2025 1 10) 100).toOption.getD []).any
      (fun o => jsIsAfter o.date (parseISO "2025-01-02")) = true :=
  ⟨rfl, by decide⟩

/-- C1 (amended): for a recurring event whose rule has a (non-empty,
parseable) `end_date`, every returned occurrence except possibly the
last has date at most the end date; the end-date check stops the loop
immediately after — not before — emitting the first occurrence that
exceeds it, so at most one returned occurrence is strictly after
`end_date`. -/
theorem calculateOccurrences_end_date_bound
    (event : EnhancedEvent) (config : RecurringEventConfig) (s : String) (D : Int)
    (startDate endDate : Int) (maxOcc : Nat) (l : List EventOccurrence)
    (hrec : event.is_recurring = true) (hcfg : event.recurring_config = some config)
    (hend : config.end_date = some s) (hs : s ≠ "") (hD : parseISO s = some D)
    (hrun : calculateOccurrences event startDate endDate maxOcc = .ok l) :
    ∀ o ∈ l.dropLast, ∀ z, o.date = some z → z ≤ D := by
  unfold calculateOccurrences calculateOccurrencesFuel at hrun
  rw [hrec, hcfg] at hrun
  exact calcLoop_end_date_bound event.id config startDate endDate maxOcc s D
    hend hs hD LOOP_FUEL (parseISO event.date) 0 [] l (by simp) hrun

/-- Witness for C1 (amended) at the daily fixture, instantiated at the
second of the three returned occurrences (2025-01-02, in the drop-last
prefix): its date is at most the parsed end date. -/
theorem calculateOccurrences_end_date_bound_witness :
    daysFromCivil 2025 1 2 ≤ daysFromCivil 2025 1 2 :=
  calculateOccurrences_end_date_bound dailyWithEndDate
    { frequency := "daily", interval := 1, end_date := some "2025-01-02" }
    "2025-01-02" (daysFromCivil 2025 1 2) (daysFromCivil 2025 1 1)
    (daysFromCivil 2025 1 10) 100 dailyEndOccurrences rfl rfl rfl
    (by decide) (by decide) (by decide)
    (mkOccurrence 2 (some (daysFromCivil 2025 1 2)) 1) (by decide)
    (daysFromCivil 2025 1 2) rfl

/-! ## C3 -/

/-- C3, counterexample: the spec's monthly scenario does not produce the
claimed dates (2025-01-31, 2025-02-28, 2025-03-31, 2025-04-30). -/
theorem calculateOccurrences_monthly_scenario_ne_claim :
    occDates (calculateOccurrences monthlyAnchor31 (daysFromCivil 2025 1 1)
        (daysFromCivil 2025 4 30) 10) ≠
      [some (daysFromCivil 2025 1 31), some (daysFromCivil 2025 2 28),
       some (daysFromCivil 2025 3 31), some (daysFromCivil 2025 4 30)] := by
  decide

/-- C3 (amended): the scenario returns 2025-01-31, 2025-02-28,
2025-03-28, 2025-04-28 in that order — monthly stepping without a target
day applies `addMonths` to the *current* date, so after the February
clamp the day drifts to 28 instead of recovering the anchor's day 31. -/
theorem calculateOccurrences_monthly_scenario :
    occDates (calculateOccurrences monthlyAnchor31 (daysFromCivil 2025 1 1)
        (daysFromCivil 2025 4 30) 10) =
      [some (daysFromCivil 2025 1 31), some (daysFromCivil 2025 2 28),
       some (daysFromCivil 2025 3 28), some (daysFromCivil 2025 4 28)] := by
  decide

/-! ## C8 -/

/-- C8, counterexample: a recurrence rule with frequency `"hourly"`
passes `validateRecurringConfig` (which never inspects the frequency),
yet the calculator throws on it. -/
theorem calculateOccurrences_throws_on_unsupported :
    validateRecurringConfig hourlyConfig = [] ∧
    calculateOccurrences hourlyEvent (daysFromCivil 2025 1 1)
        (daysFromCivil 2025 1 10) 100 =
      .error (.unsupportedFrequency "hourly") :=
  ⟨rfl, by decide⟩

/-- C8 (amended): the calculator never throws for a recurrence
configuration whose frequency is one of the four supported literals
(daily/weekly/monthly/yearly); for any other frequency string — which
store-level validation does not reject — it throws
`Unsupported recurring frequency` instead of yielding zero further
occurrences. -/
theorem calculateOccurrences_supported_never_throws
    (event : EnhancedEvent) (config : RecurringEventConfig)
    (startDate endDate : Int) (maxOcc : Nat)
    (hcfg : event.recurring_config = some config)
    (hfreq : config.frequency = "daily" ∨ config.frequency = "weekly" ∨
      config.frequency = "monthly" ∨ config.frequency = "yearly") :
    ∃ l, calculateOccurrences event startDate endDate maxOcc = .ok l := by
  unfold calculateOccurrences calculateOccurrencesFuel
  split
  next b oc config' h1 h2 =>
    rw [hcfg] at h2
    injection h2 with h2
    subst h2
    exact calcLoop_supported_ok event.id config startDate endDate maxOcc hfreq
      LOOP_FUEL (parseISO event.date) 0 []
      (by simp only [LOOP_FUEL]; omega)
  next =>
    split
    · exact ⟨_, rfl⟩
    · exact ⟨_, rfl⟩

/-- Witness for C8 (amended) at the daily fixture. -/
theorem calculateOccurrences_supported_never_throws_witness :
    ∃ l, calculateOccurrences dailyWithEndDate (daysFromCivil 2025 1 1)
        (daysFromCivil 2025 1 10) 100 = .ok l :=
  calculateOccurrences_supported_never_throws dailyWithEndDate
    { frequency := "daily", interval := 1, end_date := some "2025-01-02" }
    (daysFromCivil 2025 1 1) (daysFromCivil 2025 1 10) 100 rfl (Or.inl rfl)

/-! ## C9 -/

/-- C9: the calculator terminates for every event, window and
configuration — its result is already stable at the embedding's 10002
fuel units (one per loop iteration: the safety valve fires at
`occurrenceIndex` 10001 at the latest, after at most 10002 iterations),
and the fuel-exhaustion marker is never returned. -/
theorem calculateOccurrences_terminates (event : EnhancedEvent)
    (startDate endDate : Int) (maxOcc : Nat) (f : Nat) (hf : 10001 < f) :
    calculateOccurrencesFuel f event startDate endDate maxOcc =
      calculateOccurrences event startDate endDate maxOcc ∧
    calculateOccurrences event startDate endDate maxOcc ≠ .error .outOfFuel := by
  constructor
  · unfold calculateOccurrences calculateOccurrencesFuel
    split
    · exact calcLoop_fuel_irrel _ _ _ _ _ f LOOP_FUEL _ 0 []
        (by omega) (by simp only [LOOP_FUEL]; omega)
    · rfl
  · unfold calculateOccurrences calculateOccurrencesFuel
    split
    · exact calcLoop_no_fuel_error _ _ _ _ _ LOOP_FUEL _ 0 []
        (by simp only [LOOP_FUEL]; omega)
    · split <;> simp

/-- Witness for C9 at the monthly fixture with a larger fuel budget. -/
theorem calculateOccurrences_terminates_witness :
    calculateOccurrencesFuel 20000 monthlyAnchor31 (daysFromCivil 2025 1 1)
        (daysFromCivil 2025 4 30) 10 =
      calculateOccurrences monthlyAnchor31 (daysFromCivil 2025 1 1)
        (daysFromCivil 2025 4 30) 10 ∧
    calculateOccurrences monthlyAnchor31 (daysFromCivil 2025 1 1)
        (daysFromCivil 2025 4 30) 10 ≠ .error .outOfFuel :=
  calculateOccurrences_terminates monthlyAnchor31 (daysFromCivil 2025 1 1)
    (daysFromCivil 2025 4 30) 10 20000 (by omega)

/-! ## Membership lemmas for the reminder-time stages -/

theorem mem_jsSetDedupAux (x : Int) :
    ∀ (l seen : List Int), x ∈ jsSetDedupAux seen l ↔ x ∈ l ∧ x ∉ seen := by
  intro l
  induction l with
  | nil => intro seen; simp [jsSetDedupAux]
  | cons y ys ih =>
    intro seen
    simp only [jsSetDedupAux]
    split
    · rename_i hy
      rw [ih seen, List.mem_cons]
      constructor
      · rintro ⟨h1, h2⟩; exact ⟨Or.inr h1, h2⟩
      · rintro ⟨h1 | h1, h2⟩
        · subst h1; exact absurd hy h2
        · exact ⟨h1, h2⟩
    · rename_i hy
      rw [List.mem_cons, List.mem_cons, ih (y :: seen)]
      constructor
      · rintro (h | ⟨h1, h2⟩)
        · subst h; exact ⟨Or.inl rfl, hy⟩
        · exact ⟨Or.inr h1, fun hc => h2 (List.mem_cons.2 (Or.inr hc))⟩
      · rintro ⟨h1 | h1, h2⟩
        · exact Or.inl h1
        · by_cases hxy : x = y
          · exact Or.inl hxy
          · exact Or.inr ⟨h1, fun hc =>
              (List.mem_cons.1 hc).elim (fun h => hxy h) (fun h => h2 h)⟩

theorem mem_jsSetDedup (x : Int) (l : List Int) : x ∈ jsSetDedup l ↔ x ∈ l := by
  unfold jsSetDedup
  rw [mem_jsSetDedupAux]
  simp

theorem mem_insertSortedInt (x y : Int) :
    ∀ l, x ∈ insertSortedInt y l ↔ x = y ∨ x ∈ l := by
  intro l
  induction l with
  | nil => simp [insertSortedInt]
  | cons z zs ih =>
    simp only [insertSortedInt]
    split
    · simp [List.mem_cons]
    · rw [List.mem_cons, ih, List.mem_cons]
      tauto

theorem mem_jsSortNumericAsc (x : Int) (l : List Int) :
    x ∈ jsSortNumericAsc l ↔ x ∈ l := by
  unfold jsSortNumericAsc
  induction l with
  | nil => simp
  | cons y ys ih =>
    simp only [List.foldr]
    rw [mem_insertSortedInt, ih, List.mem_cons]

theorem mem_overrideAdjusted_of_mem (event : EnhancedEvent) (l : List Int)
    (x : Int) (h : x ∈ l) : x ∈ overrideAdjusted event l := by
  unfold overrideAdjusted
  split
  · split
    · rw [mem_jsSetDedup]; exact List.mem_append_left _ h
    · exact h
  · exact h

theorem mem_categoryAdjusted_of_mem (event : EnhancedEvent) (l : List Int)
    (x : Int) (h : x ∈ l) : x ∈ categoryAdjusted event l := by
  unfold categoryAdjusted
  split
  · rw [mem_jsSetDedup]; exact List.mem_append_left _ h
  · exact h

/-! ## C7 -/

/-- C7, counterexample: a low-priority event whose own
`reminder_minutes` override is 30 gets a 30-minute lead — under 60 —
because the under-60 filter runs before the override is unioned in; the
claim that low-priority events contain no lead time under 60 minutes is
false once the override is unioned in, as the claim requires. -/
theorem calculateReminderTimes_low_override_under_60 :
    lowPriorityOverrideEvent.priority = "low" ∧
    (30 : Int) ∈ calculateReminderTimes lowPriorityOverrideEvent basePreferences ∧
    (30 : Int) < 60 := by
  refine ⟨rfl, by decide, by decide⟩

/-- C7 (amended): high-priority events gain the 5-, 15- and 1440-minute
leads; anniversary/birthday events gain the 1-day and 1-week leads; a
truthy `reminder_minutes` override is always unioned in; and a
low-priority event's planned set contains no lead under 60 minutes
*except possibly the event's own override* — the under-60 filter runs
before the override (and category) unions. -/
theorem calculateReminderTimes_spec (event : EnhancedEvent)
    (preferences : NotificationPreferences) :
    (event.priority = "high" →
      (5 : Int) ∈ calculateReminderTimes event preferences ∧
      (15 : Int) ∈ calculateReminderTimes event preferences ∧
      (1440 : Int) ∈ calculateReminderTimes event preferences) ∧
    ((event.category = "anniversary" ∨ event.category = "birthday") →
      (1440 : Int) ∈ calculateReminderTimes event preferences ∧
      (10080 : Int) ∈ calculateReminderTimes event preferences) ∧
    (event.priority = "low" →
      ∀ t ∈ calculateReminderTimes event preferences, t < 60 →
        event.reminder_minutes = some t) ∧
    (∀ m, event.reminder_minutes = some m → m ≠ 0 →
      m ∈ calculateReminderTimes event preferences) := by
  refine ⟨?_, ?_, ?_, ?_⟩
  · intro hp
    unfold calculateReminderTimes
    refine ⟨?_, ?_, ?_⟩ <;>
      (rw [mem_jsSortNumericAsc]
       apply mem_overrideAdjusted_of_mem
       apply mem_categoryAdjusted_of_mem
       unfold priorityAdjusted
       rw [hp]
       simp [mem_jsSetDedup])
  · intro hc
    unfold calculateReminderTimes
    constructor <;>
      (rw [mem_jsSortNumericAsc]
       apply mem_overrideAdjusted_of_mem
       unfold categoryAdjusted
       rw [if_pos hc, mem_jsSetDedup]
       simp)
  · intro hp t ht hlt
    unfold calculateReminderTimes at ht
    rw [mem_jsSortNumericAsc] at ht
    unfold overrideAdjusted at ht
    have hcat : t ∉ categoryAdjusted event (priorityAdjusted event preferences.reminder_times) := by
      intro hc
      unfold categoryAdjusted at hc
      have hpri : t ∉ priorityAdjusted event preferences.reminder_times := by
        intro hpri
        unfold priorityAdjusted at hpri
        rw [hp] at hpri
        simp only [show ("low" = "high") = False by simp,
          show ("low" = "medium") = False by simp, if_false, if_pos rfl] at hpri
        have := (List.mem_filter.1 hpri).2
        simp at this
        omega
      split at hc
      · rw [mem_jsSetDedup] at hc
        rcases List.mem_append.1 hc with h | h
        · exact hpri h
        · simp at h
          omega
      · exact hpri hc
    split at ht
    · rename_i m hm
      split at ht
      · rw [mem_jsSetDedup] at ht
        rcases List.mem_append.1 ht with h | h
        · exact absurd h hcat
        · simp at h
          subst h
          exact hm
      · exact absurd ht hcat
    · exact absurd ht hcat
  · intro m hm hm0
    unfold calculateReminderTimes
    rw [mem_jsSortNumericAsc]
    unfold overrideAdjusted
    rw [hm]
    simp only [if_pos hm0]
    rw [mem_jsSetDedup]
    simp

/-- Witness for C7 (amended): the high-priority conjunct at the
anniversary fixture. -/
theorem calculateReminderTimes_spec_witness :
    (5 : Int) ∈ calculateReminderTimes highAnniversaryEvent basePreferences ∧
    (15 : Int) ∈ calculateReminderTimes highAnniversaryEvent basePreferences ∧
    (1440 : Int) ∈ calculateReminderTimes highAnniversaryEvent basePreferences :=
  (calculateReminderTimes_spec highAnniversaryEvent basePreferences).1 rfl

/-! ## C2 -/

/-- C2, counterexample: the stored row holds `is_recurring = 1` and the
payload's only defined member is the semantically identical boolean
`true`; yet the update reports success *and writes* — the version becomes
4 and an audit entry is appended — because the diff compares the raw
column value with `!==` and `1 !== true`. -/
theorem updateEnhancedEvent_boolean_echo_writes :
    storedRow.is_recurring = 1 ∧
    boolEchoPayload.is_recurring = some true ∧
    (updateEnhancedEvent oneRowState 1 boolEchoPayload (some "alice")
        "2025-01-03 00:00:00").1 = true ∧
    ((updateEnhancedEvent oneRowState 1 boolEchoPayload (some "alice")
        "2025-01-03 00:00:00").2.events.map (·.version)) = [4] ∧
    (updateEnhancedEvent oneRowState 1 boolEchoPayload (some "alice")
        "2025-01-03 00:00:00").2.event_history.length =
      oneRowState.event_history.length + 1 := by
  refine ⟨rfl, rfl, by decide, by decide, by decide⟩

/-- C2 (amended): the update is a success-reporting no-op — no write, no
version bump, no audit entry — when every *defined* payload member is a
string- or number-valued field equal to the stored value and the payload
defines no boolean field and no `recurring_config`.  A defined boolean
member or `recurring_config` member is always treated as changed, because
the stored representation (the integers 0/1, JSON text) is never strictly
equal (`!==`) to the payload's boolean or object. -/
theorem updateEnhancedEvent_idempotent
    (s : DBState) (id : Nat) (row : EventRow) (p : UpdatePayload)
    (userId : Option String) (now : String)
    (hfind : findCurrentEvent s id = some row)
    (hb1 : p.is_recurring = none) (hb2 : p.is_all_day = none)
    (hrc : p.recurring_config = none)
    (ht : ∀ v, p.title = some v → row.title = v)
    (hd : ∀ v, p.date = some v → row.date = v)
    (hde : ∀ v, p.description = some v → row.description = some v)
    (hca : ∀ v, p.category = some v → row.category = v)
    (hpr : ∀ v, p.priority = some v → row.priority = v)
    (htz : ∀ v, p.timezone = some v → row.timezone = v)
    (hlo : ∀ v, p.location = some v → row.location = some v)
    (hrm : ∀ v, p.reminder_minutes = some v → row.reminder_minutes = some v) :
    updateEnhancedEvent s id p userId now = (true, s) := by
  have hch : changedFields p row = [] := by
    unfold changedFields
    rw [List.filter_eq_nil_iff]
    intro f hf
    cases f
    case title =>
      rcases hx : p.title with _ | v
      · simp [payloadGet, hx]
      · simp [payloadGet, rowGet, hx, strictEq, ht v hx]
    case date =>
      rcases hx : p.date with _ | v
      · simp [payloadGet, hx]
      · simp [payloadGet, rowGet, hx, strictEq, hd v hx]
    case description =>
      rcases hx : p.description with _ | v
      · simp [payloadGet, hx]
      · simp [payloadGet, rowGet, hx, strictEq, hde v hx]
    case is_recurring => simp [payloadGet, hb1]
    case recurring_config => simp [payloadGet, hrc]
    case category =>
      rcases hx : p.category with _ | v
      · simp [payloadGet, hx]
      · simp [payloadGet, rowGet, hx, strictEq, hca v hx]
    case priority =>
      rcases hx : p.priority with _ | v
      · simp [payloadGet, hx]
      · simp [payloadGet, rowGet, hx, strictEq, hpr v hx]
    case timezone =>
      rcases hx : p.timezone with _ | v
      · simp [payloadGet, hx]
      · simp [payloadGet, rowGet, hx, strictEq, htz v hx]
    case is_all_day => simp [payloadGet, hb2]
    case location =>
      rcases hx : p.location with _ | v
      · simp [payloadGet, hx]
      · simp [payloadGet, rowGet, hx, strictEq, hlo v hx]
    case reminder_minutes =>
      rcases hx : p.reminder_minutes with _ | v
      · simp [payloadGet, hx]
      · simp [payloadGet, rowGet, hx, strictEq, hrm v hx]
  unfold updateEnhancedEvent
  rw [hfind]
  simp [hch]

/-- Witness for C2 (amended): echoing the stored title is a pure no-op. -/
theorem updateEnhancedEvent_idempotent_witness :
    updateEnhancedEvent oneRowState 1 titleEchoPayload (some "bob")
      "2025-01-04 00:00:00" = (true, oneRowState) :=
  updateEnhancedEvent_idempotent oneRowState 1 storedRow titleEchoPayload
    (some "bob") "2025-01-04 00:00:00" (by decide)
    rfl rfl rfl
    (fun v hv => by cases hv; rfl)
    (fun v hv => by cases hv)
    (fun v hv => by cases hv)
    (fun v hv => by cases hv)
    (fun v hv => by cases hv)
    (fun v hv => by cases hv)
    (fun v hv => by cases hv)
    (fun v hv => by cases hv)

/-! ## C5 -/

/-- `find?` returns `a` when `a` is in the list, satisfies the predicate,
and is the only element that can. -/
theorem find?_eq_some_of_unique {α : Type} {p : α → Bool} {l : List α} {a : α}
    (ha : a ∈ l) (hpa : p a = true) (huniq : ∀ x ∈ l, p x = true → x = a) :
    l.find? p = some a := by
  induction l with
  | nil => cases ha
  | cons y ys ih =>
    rw [List.find?_cons]
    rcases List.mem_cons.1 ha with h | h
    · subst h
      simp [hpa]
    · cases hpy : p y with
      | true =>
        have hy := huniq y (List.mem_cons_self _ _) hpy
        subst hy
        simp
      | false =>
        simp only []
        exact ih h (fun x hx hpx => huniq x (List.mem_cons.2 (Or.inr hx)) hpx)

/-- C5, counterexample: deleting and immediately restoring the row last
updated by `alice`, acting as `bob`, leaves `updated_by = "bob"`: a
stored field other than `version` and `deleted_at` differs from its
pre-delete value. -/
theorem deleteRestore_changes_updated_by :
    storedRow.updated_by = some "alice" ∧
    ((restoreEvent (deleteEvent oneRowState 1 (some "bob") "t1").2 1 (some "bob")
        "t2").2.events.map (·.updated_by)) = [some "bob"] ∧
    some "bob" ≠ storedRow.updated_by := by
  refine ⟨rfl, by decide, by decide⟩

/-- C5 (amended): for an existing non-deleted event (in a store with
unique row ids), `deleteEvent` immediately followed by `restoreEvent`
succeeds and leaves every stored field at its pre-delete value except
`version` (which increases by exactly 2), `deleted_at` (null again) and
`updated_by` (set to the acting user by both the delete and the restore). -/
theorem deleteRestore_roundtrip
    (s : DBState) (id : Nat) (row : EventRow) (u : Option String) (now1 now2 : String)
    (hnodup : (s.events.map (·.id)).Nodup)
    (hfind : findCurrentEvent s id = some row) :
    (deleteEvent s id u now1).1 = true ∧
    (restoreEvent (deleteEvent s id u now1).2 id u now2).1 = true ∧
    findCurrentEvent (restoreEvent (deleteEvent s id u now1).2 id u now2).2 id =
      some { row with version := row.version + 2, updated_by := u } := by
  have hmem : row ∈ s.events := List.mem_of_find?_eq_some hfind
  have hprow := List.find?_some hfind
  rw [Bool.and_eq_true, beq_iff_eq, beq_iff_eq] at hprow
  obtain ⟨hid, hdel⟩ := hprow
  have huniq : ∀ r ∈ s.events, r.id = id → r = row := by
    intro r hr hrid
    exact List.inj_on_of_nodup_map hnodup hr hmem (by simp [hrid, hid])
  -- the delete step
  have hfilter1 : row ∈ s.events.filter (fun r => r.id == id && r.deleted_at == none) :=
    List.mem_filter.2 ⟨hmem, by simp [hid, hdel]⟩
  have hlen1 : ¬((s.events.filter (fun r => r.id == id && r.deleted_at == none)).length = 0) := by
    intro h0
    rw [List.length_eq_zero] at h0
    rw [h0] at hfilter1
    cases hfilter1
  have hdelete : deleteEvent s id u now1 =
      (true,
       { s with
         events := s.events.map (fun r =>
           if r.id == id && r.deleted_at == none then
             { r with deleted_at := some now1, updated_by := u, version := r.version + 1 }
           else r)
         event_history := s.event_history ++
           [{ event_id := id, action := "deleted"
              old_values := some (.rowSnapshot row)
              changed_by := u, changed_at := now1 }]
         event_reminders := s.event_reminders.map (fun rm =>
           if rm.event_id == id && rm.status == "pending" then
             { rm with status := "cancelled" }
           else rm)
         queryCache := invalidateCachePattern s.queryCache "events" }) := by
    unfold deleteEvent
    rw [hfind]
    simp [hlen1]
  -- the post-delete image of the row
  have hrow1 : ∀ r ∈ s.events,
      (if r.id == id && r.deleted_at == none then
        ({ r with deleted_at := some now1, updated_by := u, version := r.version + 1 } : EventRow)
      else r) =
        (if r = row then
          { row with deleted_at := some now1, updated_by := u, version := row.version + 1 }
        else r) := by
    intro r hr
    by_cases hrrow : r = row
    · subst hrrow
      simp [hid, hdel]
    · rw [if_neg hrrow]
      have : ¬(r.id == id && r.deleted_at == none) = true := by
        intro hc
        rw [Bool.and_eq_true, beq_iff_eq] at hc
        exact hrrow (huniq r hr hc.1)
      rw [if_neg this]
  have hmem1 : ({ row with deleted_at := some now1, updated_by := u, version := row.version + 1 } : EventRow) ∈ s.events.map (fun r => if r.id == id && r.deleted_at == none then { r with deleted_at := some now1, updated_by := u, version := r.version + 1 } else r) := by
    rw [List.mem_map]
    exact ⟨row, hmem, by simp [hid, hdel]⟩
  have hlen2 : ¬(((s.events.map (fun r => if r.id == id && r.deleted_at == none then { r with deleted_at := some now1, updated_by := u, version := r.version + 1 } else r)).filter (fun r => r.id == id && r.deleted_at != none)).length = 0) := by
    intro h0
    rw [List.length_eq_zero, List.filter_eq_nil_iff] at h0
    exact (h0 _ hmem1) (by simp [hid])
  have hfid : ∀ (r : EventRow),
      ((if r.id == id && r.deleted_at == none then
        ({ r with deleted_at := some now1, updated_by := u, version := r.version + 1 } : EventRow)
      else r)).id = r.id := by
    intro r
    split <;> rfl
  have hgid : ∀ (r : EventRow),
      ((if r.id == id && r.deleted_at != none then
        ({ r with deleted_at := none, updated_by := u, version := r.version + 1 } : EventRow)
      else r)).id = r.id := by
    intro r
    split <;> rfl
  refine ⟨by rw [hdelete], ?_, ?_⟩
  · rw [hdelete]
    unfold restoreEvent
    rw [if_neg hlen2]
  · rw [hdelete]
    unfold restoreEvent
    rw [if_neg hlen2]
    unfold findCurrentEvent
    simp only [List.map_map]
    have hc1 : (row.id == id && row.deleted_at == none) = true := by simp [hid, hdel]
    have hc2 : (({ row with deleted_at := some now1, updated_by := u, version := row.version + 1 } : EventRow).id == id && ({ row with deleted_at := some now1, updated_by := u, version := row.version + 1 } : EventRow).deleted_at != none) = true := by simp [hid]
    apply find?_eq_some_of_unique
    · rw [List.mem_map]
      refine ⟨row, hmem, ?_⟩
      simp only [Function.comp]
      rw [if_pos hc1, if_pos hc2]
      simp [EventRow.mk.injEq, hdel]
      omega
    · simp [hid, hdel]
    · intro x hx hpx
      rw [List.mem_map] at hx
      obtain ⟨r, hr, hxr⟩ := hx
      rw [Bool.and_eq_true, beq_iff_eq] at hpx
      have hxid : x.id = r.id := by
        rw [← hxr]
        simp only [Function.comp]
        rw [hgid, hfid]
      have hrid : r.id = id := by rw [← hxid]; exact hpx.1
      have hrrow : r = row := huniq r hr hrid
      subst hrrow
      rw [← hxr]
      simp only [Function.comp]
      rw [if_pos hc1, if_pos hc2]
      simp [EventRow.mk.injEq, hdel]
      omega

/-- Witness for C5 (amended): the round trip on the one-row store, acted
by `bob`, restores the row with version 5 and `updated_by = "bob"`. -/
theorem deleteRestore_roundtrip_witness :
    (deleteEvent oneRowState 1 (some "bob") "t1").1 = true ∧
    (restoreEvent (deleteEvent oneRowState 1 (some "bob") "t1").2 1 (some "bob") "t2").1 = true ∧
    findCurrentEvent
        (restoreEvent (deleteEvent oneRowState 1 (some "bob") "t1").2 1 (some "bob") "t2").2 1 =
      some { storedRow with version := storedRow.version + 2, updated_by := some "bob" } :=
  deleteRestore_roundtrip oneRowState 1 storedRow (some "bob") "t1" "t2"
    (by decide) (by decide)

/-! ## Cache lemmas -/

theorem isPrefixOf_append_right {p l r : List Char} (h : p.isPrefixOf l = true) :
    p.isPrefixOf (l ++ r) = true := by
  induction p generalizing l with
  | nil => simp [List.isPrefixOf]
  | cons x xs ih =>
    cases l with
    | nil => simp [List.isPrefixOf] at h
    | cons y ys =>
      simp only [List.cons_append, List.isPrefixOf, Bool.and_eq_true] at h ⊢
      exact ⟨h.1, ih h.2⟩

theorem containsSublist_nil_pat : ∀ l : List Char, containsSublist [] l = true := by
  intro l
  cases l with
  | nil => rfl
  | cons c cs => simp [containsSublist, List.isPrefixOf]

theorem containsSublist_append_left {p l r : List Char}
    (h : containsSublist p l = true) : containsSublist p (l ++ r) = true := by
  induction l with
  | nil =>
    simp [containsSublist, List.isEmpty_iff] at h
    subst h
    exact containsSublist_nil_pat r
  | cons c cs ih =>
    simp only [List.cons_append, containsSublist, Bool.or_eq_true] at h ⊢
    rcases h with h | h
    · exact Or.inl (isPrefixOf_append_right h)
    · exact Or.inr (ih h)

theorem jsIncludes_append_left (a b pat : String)
    (h : jsIncludes a pat = true) : jsIncludes (a ++ b) pat = true := by
  unfold jsIncludes at h ⊢
  rw [String.data_append]
  exact containsSublist_append_left h

/-- Every `getFilteredEvents` cache key contains `"events"`. -/
theorem jsIncludes_filteredEventsKey (filters : EventFilters) (limit offset : Nat) :
    jsIncludes (filteredEventsKey filters limit offset) "events" = true := by
  unfold filteredEventsKey
  apply jsIncludes_append_left
  apply jsIncludes_append_left
  apply jsIncludes_append_left
  apply jsIncludes_append_left
  apply jsIncludes_append_left
  decide

/-- Every `getFilteredEventsCount` cache key contains `"events"`. -/
theorem jsIncludes_filteredEventsCountKey (filters : EventFilters) :
    jsIncludes (filteredEventsCountKey filters) "events" = true := by
  unfold filteredEventsCountKey
  apply jsIncludes_append_left
  decide

theorem find?_filter_of_imp {α : Type} (p q : α → Bool) (l : List α)
    (himp : ∀ x, p x = true → q x = true) :
    (l.filter q).find? p = l.find? p := by
  induction l with
  | nil => rfl
  | cons y ys ih =>
    by_cases hq : q y = true
    · rw [List.filter_cons_of_pos hq, List.find?_cons, List.find?_cons]
      cases hpy : p y
      · simp only [hpy]
        exact ih
      · simp only [hpy]
    · rw [List.filter_cons_of_neg hq, List.find?_cons]
      cases hpy : p y
      · simp only [hpy]
        exact ih
      · exact absurd (himp y hpy) hq

theorem find?_filter_none {α : Type} (p q : α → Bool) (l : List α)
    (himp : ∀ x, p x = true → q x = false) :
    (l.filter q).find? p = none := by
  rw [List.find?_eq_none]
  intro x hx hpx
  have hqx := (List.mem_filter.1 hx).2
  rw [himp x hpx] at hqx
  cases hqx

/-- A successful, store-modifying write leaves the cache exactly
invalidated by the pattern `"events"`. -/
theorem applyEventWrite_cache (s : DBState) (op : EventWriteOp) (now : String)
    (hsucc : (applyEventWrite s op now).1 = true)
    (hmod : opInvalidates s op) :
    (applyEventWrite s op now).2.queryCache =
      invalidateCachePattern s.queryCache "events" := by
  cases op with
  | createOp d userId => rfl
  | updateOp id p userId =>
    cases hfind : findCurrentEvent s id with
    | none =>
      have hres : updateEnhancedEvent s id p userId now = (false, s) := by
        unfold updateEnhancedEvent
        rw [hfind]
      simp only [applyEventWrite] at hsucc
      rw [hres] at hsucc
      simp at hsucc
    | some row =>
      have hch : changedFields p row ≠ [] := hmod row hfind
      by_cases hlen : (s.events.filter (fun r => r.id == id && r.deleted_at == none)).length = 0
      · have hres : updateEnhancedEvent s id p userId now = (false, s) := by
          unfold updateEnhancedEvent
          rw [hfind]
          simp only []
          rw [if_neg hch, if_pos hlen]
        simp only [applyEventWrite] at hsucc
        rw [hres] at hsucc
        simp at hsucc
      · simp only [applyEventWrite]
        unfold updateEnhancedEvent
        simp only [hfind]
        rw [if_neg hch, if_neg hlen]
  | deleteOp id userId =>
    cases hfind : findCurrentEvent s id with
    | none =>
      have hres : deleteEvent s id userId now = (false, s) := by
        unfold deleteEvent
        rw [hfind]
      simp only [applyEventWrite] at hsucc
      rw [hres] at hsucc
      simp at hsucc
    | some row =>
      by_cases hlen : (s.events.filter (fun r => r.id == id && r.deleted_at == none)).length = 0
      · have hres : deleteEvent s id userId now = (false, s) := by
          unfold deleteEvent
          rw [hfind]
          simp only []
          rw [if_pos hlen]
        simp only [applyEventWrite] at hsucc
        rw [hres] at hsucc
        simp at hsucc
      · simp only [applyEventWrite]
        unfold deleteEvent
        simp only [hfind]
        rw [if_neg hlen]
  | restoreOp id userId =>
    by_cases hlen : (s.events.filter (fun r => r.id == id && r.deleted_at != none)).length = 0
    · have hres : restoreEvent s id userId now = (false, s) := by
        unfold restoreEvent
        rw [if_pos hlen]
      simp only [applyEventWrite] at hsucc
      rw [hres] at hsucc
      simp at hsucc
    · simp only [applyEventWrite]
      unfold restoreEvent
      rw [if_neg hlen]

/-! ## C4 -/

/-- C4, counterexample: an update whose payload echoes the stored title
is *successful* (returns true) yet removes nothing from the cache — the
filtered-list entry, whose key contains `"events"`, is still present
afterwards; the claim's "after every successful updateEnhancedEvent,
every cache entry whose key contains `events` is removed" is false. -/
theorem noop_update_keeps_events_cache :
    updateEnhancedEvent cachedState 1 titleEchoPayload (some "alice") "t" =
      (true, cachedState) ∧
    (cacheLookup cachedState.queryCache (filteredEventsKey {} 20 0)).isSome = true ∧
    jsIncludes (filteredEventsKey {} 20 0) "events" = true := by
  refine ⟨by decide, by decide, by decide⟩

/-- C4 (amended): after every successful *store-modifying* write —
create, delete, restore, or an update whose field diff is non-empty (a
no-change update returns success without writing and without touching the
cache, leaving nothing stale) — no cache key containing `"events"`
survives, and a subsequent `getFilteredEvents` call, whatever its
filters, is a cache miss answered by the fresh query over the updated
events table. -/
theorem eventWrite_invalidates_events_cache
    (s : DBState) (op : EventWriteOp) (now : String)
    (hsucc : (applyEventWrite s op now).1 = true)
    (hmod : opInvalidates s op) :
    (∀ k e, (k, e) ∈ (applyEventWrite s op now).2.queryCache →
      jsIncludes k "events" = false) ∧
    (∀ filters limit offset clock nowMs,
      (getFilteredEvents (applyEventWrite s op now).2 filters limit offset clock nowMs).1 =
        freshFilteredEvents (applyEventWrite s op now).2.events filters clock limit offset) := by
  have hcache := applyEventWrite_cache s op now hsucc hmod
  constructor
  · intro k e hke
    rw [hcache] at hke
    have hq := (List.mem_filter.1 hke).2
    simpa using hq
  · intro filters limit offset clock nowMs
    have hnone : cacheLookup (applyEventWrite s op now).2.queryCache
        (filteredEventsKey filters limit offset) = none := by
      unfold cacheLookup
      rw [hcache]
      unfold invalidateCachePattern
      rw [find?_filter_none]
      · rfl
      · intro x hx
        rw [beq_iff_eq] at hx
        rw [hx]
        simp [jsIncludes_filteredEventsKey]
    unfold getFilteredEvents getCachedResult
    simp only [hnone]

/-- Witness for C4 (amended): deleting the stored row flushes the stale
cache, and the next filtered query is computed fresh. -/
theorem eventWrite_invalidates_events_cache_witness :
    (getFilteredEvents (applyEventWrite cachedState (.deleteOp 1 (some "bob")) "t").2
        {} 20 0 sampleClock 2000).1 =
      freshFilteredEvents (applyEventWrite cachedState (.deleteOp 1 (some "bob")) "t").2.events
        {} sampleClock 20 0 :=
  (eventWrite_invalidates_events_cache cachedState (.deleteOp 1 (some "bob")) "t"
    (by decide) trivial).2 {} 20 0 sampleClock 2000

/-! ## C10 -/

/-- C10, counterexample: the same successful no-change update also leaves
the count entry — whose key does contain `"events"` — in place, so
"all filtered-query and count entries are removed by the same write" does
not hold for every successful write. -/
theorem noop_update_keeps_count_entry :
    (updateEnhancedEvent cachedState 1 titleEchoPayload (some "alice") "t").1 = true ∧
    cacheLookup (updateEnhancedEvent cachedState 1 titleEchoPayload (some "alice") "t").2.queryCache
        (filteredEventsCountKey {}) =
      some { data := .countVal 1, timestamp := 1000, ttl := 2 * 60 * 1000 } := by
  refine ⟨by decide, by decide⟩

/-- C10 (amended): `"event_stats"` does not contain the substring
`"events"`, so the invalidation a successful store-modifying write
performs never removes the stats entry — `getEventStats` keeps answering
from it (returning the pre-write statistics) while its 60-second TTL
lasts — whereas every filtered-query key and count key contains
`"events"` and is removed by that same write. -/
theorem eventStats_cache_survives_writes
    (s : DBState) (op : EventWriteOp) (now : String) (entry : CacheEntry)
    (hsucc : (applyEventWrite s op now).1 = true)
    (hmod : opInvalidates s op)
    (hentry : cacheLookup s.queryCache "event_stats" = some entry) :
    jsIncludes "event_stats" "events" = false ∧
    cacheLookup (applyEventWrite s op now).2.queryCache "event_stats" = some entry ∧
    (∀ clock nowMs, nowMs - entry.timestamp ≤ entry.ttl →
      (getEventStats (applyEventWrite s op now).2 clock nowMs).1 = entry.data) ∧
    (∀ filters limit offset,
      cacheLookup (applyEventWrite s op now).2.queryCache
          (filteredEventsKey filters limit offset) = none ∧
      cacheLookup (applyEventWrite s op now).2.queryCache
          (filteredEventsCountKey filters) = none) := by
  have hcache := applyEventWrite_cache s op now hsucc hmod
  have hlook : cacheLookup (applyEventWrite s op now).2.queryCache "event_stats" = some entry := by
    unfold cacheLookup at hentry ⊢
    rw [hcache]
    unfold invalidateCachePattern
    rw [find?_filter_of_imp]
    · exact hentry
    · intro x hx
      rw [beq_iff_eq] at hx
      rw [hx]
      decide
  refine ⟨by decide, hlook, ?_, ?_⟩
  · intro clock nowMs httl
    unfold getEventStats getCachedResult
    simp only [hlook]
    rw [if_neg (by omega)]
  · intro filters limit offset
    constructor
    · unfold cacheLookup
      rw [hcache]
      unfold invalidateCachePattern
      rw [find?_filter_none]
      · rfl
      · intro x hx
        rw [beq_iff_eq] at hx
        rw [hx]
        simp [jsIncludes_filteredEventsKey]
    · unfold cacheLookup
      rw [hcache]
      unfold invalidateCachePattern
      rw [find?_filter_none]
      · rfl
      · intro x hx
        rw [beq_iff_eq] at hx
        rw [hx]
        simp [jsIncludes_filteredEventsCountKey]

/-- Witness for C10 (amended): after deleting the stored row, the stats
entry survives and `getEventStats` still answers from it. -/
theorem eventStats_cache_survives_writes_witness :
    cacheLookup (applyEventWrite cachedState (.deleteOp 1 (some "bob")) "t").2.queryCache
        "event_stats" =
      some { data := .statsVal 1 1 0 0 1 none, timestamp := 1000, ttl := 60 * 1000 } ∧
    (getEventStats (applyEventWrite cachedState (.deleteOp 1 (some "bob")) "t").2
        sampleClock 2000).1 = CacheData.statsVal 1 1 0 0 1 none := by
  have h := eventStats_cache_survives_writes cachedState (.deleteOp 1 (some "bob")) "t"
    { data := .statsVal 1 1 0 0 1 none, timestamp := 1000, ttl := 60 * 1000 }
    (by decide) trivial (by decide)
  exact ⟨h.2.1, h.2.2.1 sampleClock 2000 (by decide)⟩

/-! ## C6 -/

/-- C6: a POST whose recurrence rule has `interval = 400` is *not*
rejected.  `validateRecurringConfig` would reject the rule — but
`sanitizeEventData` never copies the body's `recurring_config`, so the
validator never sees it: validation passes, and an event row (with the
rule silently dropped) is inserted together with its audit entry,
contradicting "rejected with a ValidationError before any persistent
write occurs". -/
theorem interval400_creates_event :
    validateRecurringConfig interval400Config =
      [{ field := "recurring_config",
         message := "Recurring interval must be between 1 and 365" }] ∧
    (sanitizeEventData interval400Body).recurring_config = none ∧
    validateEventData (sanitizeEventData interval400Body) = [] ∧
    ∃ s', handleCreateEvent {} interval400Body "2025-01-01 00:00:00" = .created 1 s' ∧
      s'.events.length = 1 ∧ s'.event_history.length = 1 ∧
      s'.events.map (·.recurring_config) = [none] := by
  refine ⟨rfl, by decide, by decide, ?_⟩
  refine ⟨_, rfl, ?_, ?_, ?_⟩ <;> decide

end CoupleEvents
